import Mathlib

/-!
Verification of the cookie-format detection/extraction core and the
session/tool-dispatch layer of the `mcp-atlassian` repository, as a shallow
embedding in Lean.

Conventions of the embedding:
* Parsed JSON documents are modelled by the inductive type `Json`.  Python
  dictionaries built by the code are modelled as association lists
  `List (String × Json)` with Python `dict` semantics (insertion replaces the
  value in place for an existing key, otherwise appends).
* Python truthiness (`if not self.data`, `if name and value`, ...) is
  modelled by `truthy`.
* A Python exception that is caught by an enclosing `try`/`except` block is
  modelled with `Except`; the dynamic message of an exception raised on
  ill-typed data is modelled by the exception class name.
-/

inductive Json where
  | null : Json
  | bool (b : Bool) : Json
  | num (n : Int) : Json
  | str (s : String) : Json
  | arr (xs : List Json) : Json
  | obj (kvs : List (String × Json)) : Json
deriving Repr

abbrev CookieDict := List (String × Json)

/-- First-match lookup in an association list (Python `dict` access: keys of a
parsed JSON object are unique, so first match is the match). -/
def lookup? (kvs : CookieDict) (k : String) : Option Json :=
  match kvs with
  | [] => none
  | p :: rest => if p.1 == k then some p.2 else lookup? rest k

/-- Python `k in d`. -/
def hasKey (kvs : CookieDict) (k : String) : Bool :=
  kvs.any (fun p => p.1 == k)

/-- Python `d[k] = v`: replace in place if the key exists, else append. -/
def dictInsert (kvs : CookieDict) (k : String) (v : Json) : CookieDict :=
  match kvs with
  | [] => [(k, v)]
  | p :: rest => if p.1 == k then (k, v) :: rest else p :: dictInsert rest k v

/-- Python `d.update(new)`. -/
def dictUpdate (kvs new : CookieDict) : CookieDict :=
  new.foldl (fun acc p => dictInsert acc p.1 p.2) kvs

/-- Python truthiness of a parsed JSON value. -/
def truthy : Json → Bool
  | .null => false
  | .bool b => b
  | .num n => n != 0
  | .str s => s != ""
  | .arr xs => !xs.isEmpty
  | .obj kvs => !kvs.isEmpty

/-- The format classification of `CookieJSONReader.detect_format`. -/
inductive CookieFormat where
  | cookie_manager : CookieFormat
  | direct_cookies : CookieFormat
  | browser_export : CookieFormat
  | har_file : CookieFormat
  | nested_cookies : CookieFormat
  | unknown : CookieFormat
deriving Repr, DecidableEq

/-- `isinstance(d, dict) and k in d`. -/
def isObjWithKey (d : Json) (k : String) : Bool :=
  match d with
  | .obj kvs => hasKey kvs k
  | _ => false

/-- `isinstance(d, dict) and all(isinstance(v, str) for v in d.values())`. -/
def isDirectDict (d : Json) : Bool :=
  match d with
  | .obj kvs => kvs.all (fun p => match p.2 with | .str _ => true | _ => false)
  | _ => false

/-- `isinstance(d, list) and len(d) > 0` and the first element is an object
with both a `"name"` and a `"value"` key. -/
def isBrowserList (d : Json) : Bool :=
  match d with
  | .arr (x :: _) => isObjWithKey x "name" && isObjWithKey x "value"
  | _ => false

/-- Rule 5 of `detect_format`: some direct value of the object is itself an
object containing key `"cookies"`. -/
def hasNestedCookies (d : Json) : Bool :=
  match d with
  | .obj kvs => kvs.any (fun p => isObjWithKey p.2 "cookies")
  | _ => false

/-- `CookieJSONReader.detect_format`.  Note the guard `if not self.data:
return "unknown"`: a Python-falsy document (null, false, 0, empty string,
empty array, empty object) is classified `unknown` before any rule runs. -/
def detect_format (d : Json) : CookieFormat :=
  if !truthy d then .unknown
  else if isObjWithKey d "cookies" then .cookie_manager
  else if isDirectDict d then .direct_cookies
  else if isBrowserList d then .browser_export
  else if isObjWithKey d "log" then .har_file
  else if hasNestedCookies d then .nested_cookies
  else .unknown

/-- Modelled from the spec: the detector of §4.1 as literally specified —
the six precedence rules evaluated first-match on every document, with no
truthiness pre-check.  Used to compare the spec's classification against the
code's `detect_format`. -/
def spec_detect (d : Json) : CookieFormat :=
  if isObjWithKey d "cookies" then .cookie_manager
  else if isDirectDict d then .direct_cookies
  else if isBrowserList d then .browser_export
  else if isObjWithKey d "log" then .har_file
  else if hasNestedCookies d then .nested_cookies
  else .unknown

/-- Does the metadata display of `_extract_cookie_manager_format` raise?
When a `"timestamp"` key is present it computes
`time.time() - self.data['timestamp']`, which raises a `TypeError` unless
the value is numeric (Python numbers and booleans subtract from a float). -/
def timestamp_raises (kvs : CookieDict) : Bool :=
  match lookup? kvs "timestamp" with
  | some (.num _) => false
  | some (.bool _) => false
  | some _ => true
  | none => false

/-- `CookieJSONReader._extract_cookie_manager_format`:
`self.data.get('cookies', {})`, returned verbatim — unless the metadata
display's timestamp arithmetic raises, in which case the (uncaught)
exception propagates out of `extract_cookies`. -/
def extract_cookie_manager_format (d : Json) : Except String Json :=
  match d with
  | .obj kvs =>
      if timestamp_raises kvs then .error "TypeError"
      else .ok ((lookup? kvs "cookies").getD (.obj []))
  | _ => .ok (.obj [])

/-- `CookieJSONReader._extract_browser_export_format`: for each element that
is an object, insert `name → value` when both are truthy. -/
def extract_browser_export_format (xs : List Json) : CookieDict :=
  xs.foldl
    (fun acc item =>
      match item with
      | .obj kvs =>
          let name := (lookup? kvs "name").getD .null
          let value := (lookup? kvs "value").getD .null
          if truthy name && truthy value then
            match name with
            | .str s => dictInsert acc s value
            | _ => acc
          else acc
      | _ => acc)
    []

/-- Python `s.lower()` (ASCII case folding, which is all the compared data
uses). -/
def pyLower (s : String) : String :=
  ⟨s.data.map Char.toLower⟩

/-- Does `pat` occur at the head of `cs`? -/
def listStartsWith : List Char → List Char → Bool
  | _, [] => true
  | [], _ :: _ => false
  | a :: as, b :: bs => a == b && listStartsWith as bs

/-- Does `pat` occur anywhere in `hay`?  (Python `pat in hay` on strings.) -/
def listInfix (hay pat : List Char) : Bool :=
  match hay with
  | [] => pat.isEmpty
  | _ :: rest => listStartsWith hay pat || listInfix rest pat

/-- Python `pat in s` for strings. -/
def pyInStr (pat s : String) : Bool :=
  listInfix s.data pat.data

/-- The characters of `cs` strictly before the first occurrence of `c`
(all of `cs` when `c` does not occur): Python `s.split(c)[0]`. -/
def beforeChar (c : Char) : List Char → List Char
  | [] => []
  | x :: rest => if x == c then [] else x :: beforeChar c rest

/-- The characters of `cs` strictly after the first occurrence of `c`:
Python `s.split(c, 1)[1]` when `c` occurs. -/
def afterChar (c : Char) : List Char → List Char
  | [] => []
  | x :: rest => if x == c then rest else afterChar c rest

/-- Python `s.strip()`. -/
def pyStrip (s : String) : String :=
  ⟨((s.data.dropWhile Char.isWhitespace).reverse.dropWhile Char.isWhitespace).reverse⟩

def cookieKeywords : List String := ["session", "token", "auth", "cookie"]

mutual

/-- `CookieJSONReader._extract_generic_format.search_for_cookies`: heuristic
walk with the `if depth > 5: return` guard, called with `depth=0` at the
root. -/
def search_for_cookies (acc : CookieDict) (o : Json) (depth : Nat) : CookieDict :=
  if depth > 5 then acc
  else
    match o with
    | .obj kvs => search_obj_items acc kvs depth
    | .arr xs => search_arr_items acc xs depth
    | _ => acc

/-- The `for key, value in obj.items()` loop of `search_for_cookies`. -/
def search_obj_items (acc : CookieDict) (kvs : List (String × Json)) (depth : Nat) :
    CookieDict :=
  match kvs with
  | [] => acc
  | (k, v) :: rest =>
      let acc1 :=
        match v with
        | .str s =>
            if s.length > 10 && cookieKeywords.any (fun kw => pyInStr kw (pyLower k)) then
              dictInsert acc k (.str s)
            else acc
        | .obj _ => search_for_cookies acc v (depth + 1)
        | .arr _ => search_for_cookies acc v (depth + 1)
        | _ => acc
      search_obj_items acc1 rest depth

/-- The `for item in obj` loop of `search_for_cookies`. -/
def search_arr_items (acc : CookieDict) (xs : List Json) (depth : Nat) : CookieDict :=
  match xs with
  | [] => acc
  | x :: rest => search_arr_items (search_for_cookies acc x (depth + 1)) rest depth

end

mutual

/-- `CookieJSONReader._extract_nested_format.find_cookies_recursive`: merge
any object value found under a `"cookies"` key, then recurse into every
value.  Note: no depth parameter appears in the source. -/
def find_cookies_recursive (acc : CookieDict) (o : Json) : CookieDict :=
  match o with
  | .obj kvs =>
      let acc1 :=
        match lookup? kvs "cookies" with
        | some (.obj found) => dictUpdate acc found
        | _ => acc
      find_cookies_items acc1 kvs
  | _ => acc

/-- The `for key, value in obj.items()` loop of `find_cookies_recursive`. -/
def find_cookies_items (acc : CookieDict) (kvs : List (String × Json)) : CookieDict :=
  match kvs with
  | [] => acc
  | p :: rest => find_cookies_items (find_cookies_recursive acc p.2) rest

end

/-- Lines 165-169 of `_extract_har_format`: given a set-cookie header value,
take the part before the first `;` and split it on the first `=`; both the
name and the value are stripped before insertion. -/
def parse_set_cookie (acc : CookieDict) (cookie_str : String) : CookieDict :=
  if cookie_str.data.contains '=' then
    let parts := beforeChar ';' cookie_str.data
    if parts.contains '=' then
      let name : String := ⟨beforeChar '=' parts⟩
      let value : String := ⟨afterChar '=' parts⟩
      dictInsert acc (pyStrip name) (.str (pyStrip value))
    else acc
  else acc

/-- A left fold that stops the whole walk when the body raises (models the
single `try`/`except` wrapped around the HAR loops: an exception aborts the
remaining iterations and the partial dictionary is returned). -/
def foldStop (f : CookieDict → Json → Except CookieDict CookieDict)
    (acc : CookieDict) : List Json → Except CookieDict CookieDict
  | [] => .ok acc
  | x :: xs =>
      match f acc x with
      | .ok acc1 => foldStop f acc1 xs
      | .error a => .error a

/-- One response header of a HAR entry: headers whose name (a string)
case-insensitively equals `set-cookie` are parsed; a non-string name or
value raises inside the `try` block. -/
def har_process_header (acc : CookieDict) (h : Json) :
    Except CookieDict CookieDict :=
  match h with
  | .obj kvs =>
      match (lookup? kvs "name").getD (.str "") with
      | .str n =>
          if pyLower n == "set-cookie" then
            match (lookup? kvs "value").getD (.str "") with
            | .str v => .ok (parse_set_cookie acc v)
            | _ => .error acc
          else .ok acc
      | _ => .error acc
  | _ => .error acc

/-- One request cookie of a HAR entry (`request.cookies[*]`): insert
`name → value` when both are truthy.  (JSON object keys are strings, so a
non-string truthy name cannot come from a parsed document; the model keeps
the accumulator unchanged in that case.) -/
def har_process_request_cookie (acc : CookieDict) (c : Json) :
    Except CookieDict CookieDict :=
  match c with
  | .obj kvs =>
      let name := (lookup? kvs "name").getD .null
      let value := (lookup? kvs "value").getD .null
      if truthy name && truthy value then
        match name with
        | .str s => .ok (dictInsert acc s value)
        | _ => .ok acc
      else .ok acc
  | _ => .error acc

/-- One HAR entry: request cookies first, then response headers; accessing a
non-object entry/request/response (or iterating a non-array) raises. -/
def har_process_entry (acc : CookieDict) (e : Json) :
    Except CookieDict CookieDict :=
  match e with
  | .obj kvs =>
      let request := (lookup? kvs "request").getD (.obj [])
      let response := (lookup? kvs "response").getD (.obj [])
      match request with
      | .obj rkvs =>
          match (lookup? rkvs "cookies").getD (.arr []) with
          | .arr cs =>
              match foldStop har_process_request_cookie acc cs with
              | .error a => .error a
              | .ok acc1 =>
                  match response with
                  | .obj pkvs =>
                      match (lookup? pkvs "headers").getD (.arr []) with
                      | .arr hs => foldStop har_process_header acc1 hs
                      | _ => .error acc1
                  | _ => .error acc1
          | _ => .error acc
      | _ => .error acc
  | _ => .error acc

/-- `CookieJSONReader._extract_har_format`. -/
def extract_har_format (d : Json) : CookieDict :=
  match d with
  | .obj kvs =>
      match (lookup? kvs "log").getD (.obj []) with
      | .obj lkvs =>
          match (lookup? lkvs "entries").getD (.arr []) with
          | .arr es =>
              match foldStop har_process_entry [] es with
              | .ok acc => acc
              | .error acc => acc
          | _ => []
      | _ => []
  | _ => []

/-- `CookieJSONReader._extract_nested_format`. -/
def extract_nested_format (d : Json) : CookieDict :=
  find_cookies_recursive [] d

/-- `CookieJSONReader._extract_generic_format`. -/
def extract_generic_format (d : Json) : CookieDict :=
  search_for_cookies [] d 0

/-- `CookieJSONReader.extract_cookies`: detect, then dispatch to the
format-specific extractor.  Only the cookie-manager path can raise (its
metadata display, see `extract_cookie_manager_format`); `extract_cookies`
has no handler of its own, so that exception escapes as `.error`. -/
def extract_cookies (d : Json) : Except String Json :=
  match detect_format d with
  | .cookie_manager => extract_cookie_manager_format d
  | .direct_cookies => .ok d
  | .browser_export =>
      .ok (.obj (extract_browser_export_format (match d with | .arr xs => xs | _ => [])))
  | .har_file => .ok (.obj (extract_har_format d))
  | .nested_cookies => .ok (.obj (extract_nested_format d))
  | .unknown => .ok (.obj (extract_generic_format d))

/-- Is a JSON value an atom (not an array and not an object)? -/
def jsonAtom : Json → Bool
  | .arr _ => false
  | .obj _ => false
  | _ => true

/-- `CookieJSONReader.save_as_cookie_manager_format`: the JSON object written
out (file I/O aside), with the run-time metadata as parameters. -/
def save_as_cookie_manager_format (cookies : CookieDict) (timestamp : Int)
    (last_refresh source_file : String) (format_detected : Json) : Json :=
  .obj [("cookies", .obj cookies),
        ("timestamp", .num timestamp),
        ("domain", .str "extracted_from_json"),
        ("last_refresh", .str last_refresh),
        ("source_file", .str source_file),
        ("format_detected", format_detected)]

mutual

/-- Modelled from the spec: the NestedFormat walk as the spec describes it —
"likewise depth-bounded", with the same fixed maximum (5 levels) that the
spec names for the UnknownFormat walk.  The source's
`find_cookies_recursive` has no such bound; this definition exists to
compare the spec's description against the code. -/
def spec_nested_bounded (acc : CookieDict) (o : Json) (depth : Nat) : CookieDict :=
  if depth > 5 then acc
  else
    match o with
    | .obj kvs =>
        let acc1 :=
          match lookup? kvs "cookies" with
          | some (.obj found) => dictUpdate acc found
          | _ => acc
        spec_nested_items acc1 kvs depth
    | _ => acc

/-- The item loop of `spec_nested_bounded`. -/
def spec_nested_items (acc : CookieDict) (kvs : List (String × Json)) (depth : Nat) :
    CookieDict :=
  match kvs with
  | [] => acc
  | p :: rest => spec_nested_items (spec_nested_bounded acc p.2 (depth + 1)) rest depth

end

/-- A chain of `n + 1` nested singleton objects with a `"cookies"` object at
the innermost level. -/
def chainC4 : Nat → Json
  | 0 => .obj [("cookies", .obj [("D", .str "2")])]
  | n + 1 => .obj [("a", chainC4 n)]

/-- A document that classifies as `nested_cookies` (the `"shallow"` value
carries a direct `"cookies"` object) but whose second cookie object sits
eight levels deep. -/
def deepC4 : Json :=
  .obj [("shallow", .obj [("cookies", .obj [("S", .str "1")])]),
        ("deep", chainC4 7)]

/-- The HAR document of the spec's §8 example: one entry whose response
headers carry `Set-Cookie: SESSID=abc123; Path=/; HttpOnly`. -/
def harDocC5 : Json :=
  .obj [("log", .obj [("entries", .arr [
    .obj [("response", .obj [("headers", .arr [
      .obj [("name", .str "Set-Cookie"),
            ("value", .str "SESSID=abc123; Path=/; HttpOnly")]])])]])])]

/-- A HAR document whose set-cookie header value carries surrounding
whitespace around both the name and the value. -/
def harDocC9 : Json :=
  .obj [("log", .obj [("entries", .arr [
    .obj [("response", .obj [("headers", .arr [
      .obj [("name", .str "set-COOKIE"),
            ("value", .str "NAME = val ")]])])]])])]

/-- The spec's claimed invariant on extraction results: every entry's value
is a non-empty string. -/
def allValuesNonemptyString (d : Json) : Bool :=
  match d with
  | .obj kvs => kvs.all (fun p => match p.2 with | .str s => s != "" | _ => false)
  | _ => false

/-- `detect_format` on an object containing a `"cookies"` key (such an
object is non-empty, hence truthy). -/
theorem detect_format_cookie_manager {kvs : CookieDict}
    (h : hasKey kvs "cookies" = true) :
    detect_format (.obj kvs) = .cookie_manager := by
  have hne : kvs.isEmpty = false := by
    cases kvs with
    | nil => simp [hasKey] at h
    | cons p rest => rfl
  simp [detect_format, truthy, isObjWithKey, hne, h]

/-- `extract_cookies` on an object containing a `"cookies"` key dispatches
to the cookie-manager extractor. -/
theorem extract_cookies_cookie_manager {kvs : CookieDict}
    (h : hasKey kvs "cookies" = true) :
    extract_cookies (.obj kvs) = extract_cookie_manager_format (.obj kvs) := by
  unfold extract_cookies
  rw [detect_format_cookie_manager h]

/-- C1: counterexample.  The claim says extraction skips numeric values and
returns only non-empty strings; the code filters nothing: the document
`{"cookies": {"a": 5}}` extracts to `{"a": 5}`, which contains a numeric
value. -/
theorem C1_counterexample :
    extract_cookies (.obj [("cookies", .obj [("a", .num 5)])]) =
      .ok (.obj [("a", .num 5)]) ∧
    allValuesNonemptyString (.obj [("a", .num 5)]) = false :=
  ⟨rfl, rfl⟩

/-- C1 (amended): neither the CookieManagerFormat nor the NestedFormat path
filters values.  CookieManagerFormat extraction returns the object at key
`"cookies"` verbatim — numeric, boolean, null and empty-string values
included — provided any `"timestamp"` metadata value is numeric; a
non-numeric timestamp makes the metadata display raise an uncaught
`TypeError` instead.  NestedFormat extraction merges found cookie entries
verbatim, atoms of every type included. -/
theorem C1_amended_theorem :
    (∀ kvs : CookieDict, hasKey kvs "cookies" = true →
      timestamp_raises kvs = false →
      extract_cookies (.obj kvs) = .ok ((lookup? kvs "cookies").getD (.obj []))) ∧
    (∀ kvs : CookieDict, hasKey kvs "cookies" = true →
      timestamp_raises kvs = true →
      extract_cookies (.obj kvs) = .error "TypeError") ∧
    (∀ v : Json, jsonAtom v = true →
      extract_cookies (.obj [("x", .obj [("cookies", .obj [("b", v)])])]) =
        .ok (.obj [("b", v)])) := by
  refine ⟨?_, ?_, ?_⟩
  · intro kvs h ht
    rw [extract_cookies_cookie_manager h]
    simp [extract_cookie_manager_format, ht]
  · intro kvs h ht
    rw [extract_cookies_cookie_manager h]
    simp [extract_cookie_manager_format, ht]
  · intro v hv
    cases v with
    | arr xs => simp [jsonAtom] at hv
    | obj kvs => simp [jsonAtom] at hv
    | null => rfl
    | bool b => rfl
    | num n => rfl
    | str s => rfl

/-- C1: witness for the amended theorem at `{"cookies": 3}` (no timestamp,
so no raise) and at a nested document carrying a null cookie value. -/
theorem C1_amended_witness :
    hasKey [("cookies", Json.num 3)] "cookies" = true ∧
    timestamp_raises [("cookies", Json.num 3)] = false ∧
    extract_cookies (.obj [("cookies", Json.num 3)]) =
      .ok ((lookup? [("cookies", Json.num 3)] "cookies").getD (.obj [])) ∧
    jsonAtom Json.null = true ∧
    extract_cookies (.obj [("x", .obj [("cookies", .obj [("b", Json.null)])])]) =
      .ok (.obj [("b", Json.null)]) :=
  ⟨rfl, rfl, C1_amended_theorem.1 [("cookies", Json.num 3)] rfl rfl, rfl,
   C1_amended_theorem.2.2 Json.null rfl⟩

/-- C2: counterexample.  The claim's rules, evaluated first-match on every
document, classify the empty object as `direct_cookies` (every value is
vacuously a string); the code's `if not self.data` guard classifies it
`unknown`. -/
theorem C2_counterexample :
    detect_format (.obj []) = .unknown ∧
    spec_detect (.obj []) = .direct_cookies ∧
    detect_format (.obj []) ≠ spec_detect (.obj []) :=
  ⟨rfl, rfl, by decide⟩

/-- C2 (amended): `detect_format` is total and first-match over the six
precedence rules for every truthy document, but a Python-falsy document
(empty object, empty array, null, false, 0, empty string) is classified
`unknown` before the rules run; an object containing both a `"cookies"` and
a `"log"` key still classifies as `cookie_manager`. -/
theorem C2_amended_theorem :
    (∀ d : Json, detect_format d = if truthy d then spec_detect d else .unknown) ∧
    (∀ (v w : Json) (kvs : CookieDict),
      detect_format (.obj (("cookies", v) :: ("log", w) :: kvs)) = .cookie_manager) := by
  constructor
  · intro d
    cases h : truthy d <;> simp [detect_format, spec_detect, h]
  · intro v w kvs
    simp [detect_format, truthy, isObjWithKey, hasKey]

/-- C3: counterexample.  The empty object is a flat object all of whose
values are (vacuously) strings and which has no `"cookies"` key, yet
`detect_format` classifies it `unknown`, not `direct_cookies`. -/
theorem C3_counterexample :
    detect_format (.obj []) = .unknown ∧
    detect_format (.obj []) ≠ .direct_cookies :=
  ⟨rfl, by decide⟩

/-- C3 (amended): for every NON-EMPTY flat object whose values are all
strings and which has no `"cookies"` key, `detect_format` returns
`direct_cookies` and `extract_cookies` is the identity; the empty object is
instead classified `unknown` by the falsy-document guard. -/
theorem C3_amended_theorem (kvs : CookieDict) (h1 : kvs ≠ [])
    (h2 : isDirectDict (.obj kvs) = true) (h3 : hasKey kvs "cookies" = false) :
    detect_format (.obj kvs) = .direct_cookies ∧
    extract_cookies (.obj kvs) = .ok (.obj kvs) := by
  have hne : kvs.isEmpty = false := by
    cases kvs with
    | nil => exact absurd rfl h1
    | cons p rest => rfl
  have hdet : detect_format (.obj kvs) = .direct_cookies := by
    simp [detect_format, truthy, isObjWithKey, hne, h3, h2]
  refine ⟨hdet, ?_⟩
  unfold extract_cookies
  rw [hdet]

/-- C3: witness for the amended theorem at `{"a": "b"}`. -/
theorem C3_amended_witness :
    ([("a", Json.str "b")] : CookieDict) ≠ [] ∧
    isDirectDict (.obj [("a", Json.str "b")]) = true ∧
    hasKey [("a", Json.str "b")] "cookies" = false ∧
    detect_format (.obj [("a", Json.str "b")]) = .direct_cookies ∧
    extract_cookies (.obj [("a", Json.str "b")]) = .ok (.obj [("a", Json.str "b")]) := by
  have h := C3_amended_theorem [("a", Json.str "b")] (by simp) rfl rfl
  exact ⟨by simp, rfl, rfl, h.1, h.2⟩

/-- C4: counterexample.  On `deepC4` the code's NestedFormat walk returns
the cookie object found eight levels deep, which a walk bounded at the
spec's fixed maximum depth (5) would not reach: the code's walk is not
depth-bounded. -/
theorem C4_counterexample :
    extract_cookies deepC4 = .ok (.obj [("S", Json.str "1"), ("D", Json.str "2")]) ∧
    spec_nested_bounded [] deepC4 0 = [("S", Json.str "1")] ∧
    (Json.obj [("S", Json.str "1"), ("D", Json.str "2")] : Json) ≠
      Json.obj [("S", Json.str "1")] :=
  ⟨rfl, rfl, by simp⟩

/-- C4 (amended): the UnknownFormat heuristic walk stops recursing beyond
5 levels of nesting (at any depth past the bound it returns its accumulator
untouched), while the NestedFormat walk is NOT depth-bounded — it finds a
cookie object below arbitrarily many levels of nesting.  Both walks (and
hence `extract_cookies`) terminate on every document, witnessed by these
total definitions. -/
theorem C4_amended_theorem :
    (∀ (acc : CookieDict) (o : Json) (d : Nat), search_for_cookies acc o (d + 6) = acc) ∧
    (∀ n : Nat, extract_nested_format (chainC4 n) = [("D", Json.str "2")]) := by
  constructor
  · intro acc o d
    rw [search_for_cookies.eq_def]
    rw [if_pos (by omega)]
  · intro n
    induction n with
    | zero => rfl
    | succ k ih =>
        simpa [extract_nested_format, chainC4, find_cookies_recursive,
               find_cookies_items, lookup?] using ih

/-- C5: HAR set-cookie parsing.  The spec's example header yields
`SESSID → abc123`; a header value with no `=` is skipped; header-name
matching is case-insensitive and only the part before the first `;` is
parsed. -/
theorem C5_theorem :
    extract_cookies harDocC5 = .ok (.obj [("SESSID", Json.str "abc123")]) ∧
    (∀ (acc : CookieDict) (v : String),
      v.data.contains '=' = false → parse_set_cookie acc v = acc) ∧
    har_process_header [] (.obj [("name", .str "sEt-CoOkIe"), ("value", .str "A=b;x=y")]) =
      .ok [("A", Json.str "b")] := by
  refine ⟨rfl, ?_, rfl⟩
  intro acc v h
  have h' : ¬ ('=' ∈ v.data) := by simpa using h
  simp [parse_set_cookie, h']

/-- C5: witness for the skip clause at the `=`-free header value `"abc"`. -/
theorem C5_witness :
    ("abc".data.contains '=') = false ∧ parse_set_cookie [] "abc" = [] :=
  ⟨rfl, C5_theorem.2.1 [] "abc" rfl⟩

/-- C8: round-trip.  Saving any string-valued CookieSet with
`save_as_cookie_manager_format` and re-running the detector and extractor
on the saved document classifies it `cookie_manager` and recovers exactly
the saved name→value map. -/
theorem C8_theorem (cs : List (String × String)) (ts : Int)
    (lr sf : String) (fd : Json) :
    detect_format (save_as_cookie_manager_format
        (cs.map (fun p => (p.1, Json.str p.2))) ts lr sf fd) = .cookie_manager ∧
    extract_cookies (save_as_cookie_manager_format
        (cs.map (fun p => (p.1, Json.str p.2))) ts lr sf fd) =
      .ok (.obj (cs.map (fun p => (p.1, Json.str p.2)))) := by
  constructor
  · simp [save_as_cookie_manager_format, detect_format, truthy, isObjWithKey, hasKey]
  · simp [save_as_cookie_manager_format, extract_cookies, detect_format, truthy,
          isObjWithKey, hasKey, extract_cookie_manager_format, timestamp_raises, lookup?]

/-- C9: whitespace normalisation.  Only HAR set-cookie parsing strips the
parsed name and value (`"NAME = val "` yields `NAME → val`); browser-export
extraction inserts name and value verbatim, and cookie-manager extraction
returns values verbatim. -/
theorem C9_theorem :
    extract_cookies harDocC9 = .ok (.obj [("NAME", Json.str "val")]) ∧
    (∀ n v : String, (n == "") = false → (v == "") = false →
      extract_cookies (.arr [.obj [("name", Json.str n), ("value", Json.str v)]]) =
        .ok (.obj [(n, Json.str v)])) ∧
    extract_cookies (.obj [("cookies", .obj [(" B ", Json.str " w ")])]) =
      .ok (.obj [(" B ", Json.str " w ")]) := by
  refine ⟨rfl, ?_, rfl⟩
  intro n v hn hv
  simp [extract_cookies, detect_format, truthy, isObjWithKey, hasKey, isDirectDict,
        isBrowserList, extract_browser_export_format, lookup?, dictInsert, hn, hv]
  exact ⟨by simpa using hn, by simpa using hv⟩

/-- C9: witness showing a browser-export value with surrounding whitespace is
kept verbatim. -/
theorem C9_witness :
    ("A" == "") = false ∧ (" v " == "") = false ∧
    extract_cookies (.arr [.obj [("name", Json.str "A"), ("value", Json.str " v ")]]) =
      .ok (.obj [("A", Json.str " v ")]) :=
  ⟨rfl, rfl, C9_theorem.2.1 "A" " v " rfl rfl⟩

mutual

/-- Python f-string rendering (`str()`) of a JSON value.  Container
rendering follows Python `repr` (no claim depends on string-escape
refinements inside containers). -/
def pyStr : Json → String
  | .null => "None"
  | .bool b => if b then "True" else "False"
  | .num n => toString n
  | .str s => s
  | .arr xs => "[" ++ pyReprSeq xs ++ "]"
  | .obj kvs => "\x7b" ++ pyReprPairs kvs ++ "\x7d"

/-- Python `repr()` of a JSON value (strings quoted). -/
def pyRepr : Json → String
  | .null => "None"
  | .bool b => if b then "True" else "False"
  | .num n => toString n
  | .str s => "\x27" ++ s ++ "\x27"
  | .arr xs => "[" ++ pyReprSeq xs ++ "]"
  | .obj kvs => "\x7b" ++ pyReprPairs kvs ++ "\x7d"

/-- Comma-separated list rendering. -/
def pyReprSeq : List Json → String
  | [] => ""
  | [x] => pyRepr x
  | x :: rest => pyRepr x ++ ", " ++ pyReprSeq rest

/-- Comma-separated dict rendering. -/
def pyReprPairs : List (String × Json) → String
  | [] => ""
  | [(k, v)] => "\x27" ++ k ++ "\x27: " ++ pyRepr v
  | (k, v) :: rest => "\x27" ++ k ++ "\x27: " ++ pyRepr v ++ ", " ++ pyReprPairs rest

end

/-- Session headers: the HTTP library stores them in a case-insensitive
mapping; the model keeps name/value pairs compared through `pyLower`. -/
def hLookup : List (String × Json) → String → Option Json
  | [], _ => none
  | p :: rest, k => if pyLower p.1 == pyLower k then some p.2 else hLookup rest k

/-- Case-insensitive `name in session.headers`. -/
def hHasKey : List (String × Json) → String → Bool
  | [], _ => false
  | p :: rest, k => (pyLower p.1 == pyLower k) || hHasKey rest k

/-- Case-insensitive `session.headers[name] = value` (the mapping keeps one
binding per case-folded name; binding order is not observable through
lookup). -/
def hInsert (hs : List (String × Json)) (k : String) (v : Json) :
    List (String × Json) :=
  (hs.filter (fun p => pyLower p.1 != pyLower k)) ++ [(k, v)]

/-- `session.headers.update(new)`. -/
def hUpdate (hs new : List (String × Json)) : List (String × Json) :=
  new.foldl (fun acc p => hInsert acc p.1 p.2) hs

/-- Modelled from the spec: the HTTP client library is an external
collaborator (§1, §5), so its session construction is not under `src/`.  A
fresh `requests.Session()` starts with the library's own baseline headers —
among them a `User-Agent` and an `Accept` — before any code of this
repository touches it.  The value strings are representative; what the
theorems depend on is which header NAMES are present. -/
def requests_baseline_headers : List (String × Json) :=
  [("User-Agent", .str "python-requests/2.31.0"),
   ("Accept-Encoding", .str "gzip, deflate"),
   ("Accept", .str "*/*"),
   ("Connection", .str "keep-alive")]

/-- The mutable state of `ExtendedJiraManager` (`__init__` fields plus the
session's headers and cookie jar). -/
structure Manager where
  jira_url : Json
  cookies_loaded : Bool
  config_loaded : Bool
  headers : List (String × Json)
  session_cookies : CookieDict

/-- `ExtendedJiraManager.__init__` (`self.session = requests.Session()`
brings the library's baseline headers along). -/
def Manager.init : Manager :=
  { jira_url := .null, cookies_loaded := false, config_loaded := false,
    headers := requests_baseline_headers, session_cookies := [] }

/-- `ExtendedJiraManager.is_ready`: `config_loaded and cookies_loaded and
jira_url` (Python truthiness of the final conjunct). -/
def is_ready (m : Manager) : Bool :=
  m.config_loaded && m.cookies_loaded && truthy m.jira_url

/-- One outbound HTTP request (method, URL and JSON body/params). -/
structure Request where
  method : String
  url : String
  payload : Option Json

/-- The response seen by the code after `raise_for_status`: its JSON body
and its raw content length (used only by attachment download). -/
structure HttpResponse where
  json : Json
  contentLength : Nat

/-- The network oracle: `.error` models a transport failure or a non-2xx
status raised by `raise_for_status`, carrying the exception text. -/
abbrev Net : Type := Request → Except String HttpResponse

def errNotInit : Json := .obj [("error", .str "Manager not initialized")]

def errMsg (e : String) : Json := .obj [("error", .str e)]

/-- A single `_make_browser_request` + `raise_for_status` + result shaping
inside the per-method `try`/`except` (the humanising sleeps around the
request carry no semantic content). -/
def simpleCall (net : Net) (method url : String) (payload : Option Json)
    (shape : HttpResponse → Except String Json) : Json × List Request :=
  let req : Request := ⟨method, url, payload⟩
  match net req with
  | .ok r =>
      (match shape r with
       | .ok j => j
       | .error e => errMsg e, [req])
  | .error e => (errMsg e, [req])

/-- Python `x.get(k, dflt)`; a non-dict receiver raises `AttributeError`. -/
def pyGet (j : Json) (k : String) (dflt : Json) : Except String Json :=
  match j with
  | .obj kvs => .ok ((lookup? kvs k).getD dflt)
  | _ => .error "AttributeError"

/-- The membership test `"error" in result` on a tool result (a key test on
the objects the modelled code produces and receives). -/
def pyHasKey (j : Json) (k : String) : Bool :=
  match j with
  | .obj kvs => hasKey kvs k
  | _ => false

/-- Python `len()` of a JSON value; `len` of a number/bool/null raises. -/
def pyLen (j : Json) : Except String Nat :=
  match j with
  | .arr xs => .ok xs.length
  | .obj kvs => .ok kvs.length
  | .str s => .ok s.length
  | _ => .error "TypeError"

/-- `f"{self.jira_url}"` as used in every URL template. -/
def murl (m : Manager) : String := pyStr m.jira_url

/-- `ExtendedJiraManager.jira_search`. -/
def jira_search (m : Manager) (net : Net) (jql max_results : Json) :
    Json × List Request :=
  if is_ready m then
    simpleCall net "GET" (murl m ++ "/rest/api/2/search")
      (some (.obj [("jql", jql), ("maxResults", max_results),
        ("fields", .str "summary,status,assignee,reporter,created,updated,description,issuetype,priority")]))
      (fun r => .ok r.json)
  else (errNotInit, [])

/-- `ExtendedJiraManager.jira_get_issue`. -/
def jira_get_issue (m : Manager) (net : Net) (issue_key : Json) :
    Json × List Request :=
  if is_ready m then
    simpleCall net "GET" (murl m ++ "/rest/api/2/issue/" ++ pyStr issue_key) none
      (fun r => .ok r.json)
  else (errNotInit, [])

/-- `ExtendedJiraManager.jira_get_user_profile`. -/
def jira_get_user_profile (m : Manager) (net : Net) : Json × List Request :=
  if is_ready m then
    simpleCall net "GET" (murl m ++ "/rest/api/2/myself") none (fun r => .ok r.json)
  else (errNotInit, [])

/-- `ExtendedJiraManager.jira_add_comment`. -/
def jira_add_comment (m : Manager) (net : Net) (issue_key comment : Json) :
    Json × List Request :=
  if is_ready m then
    simpleCall net "POST" (murl m ++ "/rest/api/2/issue/" ++ pyStr issue_key ++ "/comment")
      (some (.obj [("body", comment)])) (fun r => .ok r.json)
  else (errNotInit, [])

/-- `ExtendedJiraManager.jira_get_comments`. -/
def jira_get_comments (m : Manager) (net : Net) (issue_key : Json) :
    Json × List Request :=
  if is_ready m then
    simpleCall net "GET" (murl m ++ "/rest/api/2/issue/" ++ pyStr issue_key ++ "/comment")
      none (fun r => .ok r.json)
  else (errNotInit, [])

/-- `ExtendedJiraManager.jira_get_projects`. -/
def jira_get_projects (m : Manager) (net : Net) : Json × List Request :=
  if is_ready m then
    simpleCall net "GET" (murl m ++ "/rest/api/2/project") none
      (fun r => .ok (.obj [("projects", r.json)]))
  else (errNotInit, [])

/-- `ExtendedJiraManager.jira_get_project`. -/
def jira_get_project (m : Manager) (net : Net) (project_key : Json) :
    Json × List Request :=
  if is_ready m then
    simpleCall net "GET" (murl m ++ "/rest/api/2/project/" ++ pyStr project_key) none
      (fun r => .ok r.json)
  else (errNotInit, [])

/-- `ExtendedJiraManager.jira_get_project_issues`: delegates to
`jira_search` with `jql = f"project = {project_key}"`. -/
def jira_get_project_issues (m : Manager) (net : Net) (project_key max_results : Json) :
    Json × List Request :=
  if is_ready m then
    jira_search m net (.str ("project = " ++ pyStr project_key)) max_results
  else (errNotInit, [])

/-- `ExtendedJiraManager.jira_get_transitions`. -/
def jira_get_transitions (m : Manager) (net : Net) (issue_key : Json) :
    Json × List Request :=
  if is_ready m then
    simpleCall net "GET"
      (murl m ++ "/rest/api/2/issue/" ++ pyStr issue_key ++ "/transitions") none
      (fun r => .ok r.json)
  else (errNotInit, [])

/-- The transition-matching loop of `jira_transition_issue`:
`transition.get("name", "").lower() == transition_name.lower()`, returning
`transition.get("id")` of the first match (`null` when none matches). -/
def find_transition_id (ts : List Json) (transition_name : Json) :
    Except String Json :=
  match ts with
  | [] => .ok .null
  | t :: rest =>
      match t with
      | .obj kvs =>
          match (lookup? kvs "name").getD (.str "") with
          | .str s =>
              match transition_name with
              | .str tn =>
                  if pyLower s == pyLower tn then .ok ((lookup? kvs "id").getD .null)
                  else find_transition_id rest transition_name
              | _ => .error "AttributeError"
          | _ => .error "AttributeError"
      | _ => .error "AttributeError"

/-- `ExtendedJiraManager.jira_transition_issue`. -/
def jira_transition_issue (m : Manager) (net : Net) (issue_key transition_name : Json) :
    Json × List Request :=
  if is_ready m then
    let tr := jira_get_transitions m net issue_key
    if pyHasKey tr.1 "error" then tr
    else
      match pyGet tr.1 "transitions" (.arr []) with
      | .error e => (errMsg e, tr.2)
      | .ok ts =>
          match ts with
          | .arr tlist =>
              match find_transition_id tlist transition_name with
              | .error e => (errMsg e, tr.2)
              | .ok tid =>
                  if truthy tid then
                    let req : Request :=
                      ⟨"POST",
                       murl m ++ "/rest/api/2/issue/" ++ pyStr issue_key ++ "/transitions",
                       some (.obj [("transition", .obj [("id", tid)])])⟩
                    match net req with
                    | .ok _ =>
                        (.obj [("success", .str ("Transitioned " ++ pyStr issue_key ++
                          " to " ++ pyStr transition_name))], tr.2 ++ [req])
                    | .error e => (errMsg e, tr.2 ++ [req])
                  else
                    (errMsg ("Transition \x27" ++ pyStr transition_name ++ "\x27 not found"),
                     tr.2)
          | _ => (errMsg "TypeError", tr.2)
  else (errNotInit, [])

/-- `ExtendedJiraManager.jira_get_worklog`. -/
def jira_get_worklog (m : Manager) (net : Net) (issue_key : Json) :
    Json × List Request :=
  if is_ready m then
    simpleCall net "GET" (murl m ++ "/rest/api/2/issue/" ++ pyStr issue_key ++ "/worklog")
      none (fun r => .ok r.json)
  else (errNotInit, [])

/-- `ExtendedJiraManager.jira_add_worklog`. -/
def jira_add_worklog (m : Manager) (net : Net) (issue_key time_spent comment : Json) :
    Json × List Request :=
  if is_ready m then
    simpleCall net "POST" (murl m ++ "/rest/api/2/issue/" ++ pyStr issue_key ++ "/worklog")
      (some (.obj [("timeSpent", time_spent), ("comment", comment)]))
      (fun _ => .ok (.obj [("success",
        .str ("Added " ++ pyStr time_spent ++ " worklog to " ++ pyStr issue_key))]))
  else (errNotInit, [])

/-- `ExtendedJiraManager.jira_create_issue`. -/
def jira_create_issue (m : Manager) (net : Net)
    (project_key summary description issue_type : Json) : Json × List Request :=
  if is_ready m then
    simpleCall net "POST" (murl m ++ "/rest/api/2/issue")
      (some (.obj [("fields", .obj [
        ("project", .obj [("key", project_key)]),
        ("summary", summary),
        ("description", description),
        ("issuetype", .obj [("name", issue_type)])])]))
      (fun r => do
        let k ← pyGet r.json "key" .null
        .ok (.obj [("success", .str ("Created issue " ++ pyStr k)), ("issue", r.json)]))
  else (errNotInit, [])

/-- `ExtendedJiraManager.jira_update_issue`: only truthy `summary` /
`description` arguments enter the `fields` payload. -/
def jira_update_issue (m : Manager) (net : Net) (issue_key summary description : Json) :
    Json × List Request :=
  if is_ready m then
    let fields : CookieDict :=
      (if truthy summary then [("summary", summary)] else []) ++
      (if truthy description then [("description", description)] else [])
    simpleCall net "PUT" (murl m ++ "/rest/api/2/issue/" ++ pyStr issue_key)
      (some (.obj [("fields", .obj fields)]))
      (fun _ => .ok (.obj [("success", .str ("Updated issue " ++ pyStr issue_key))]))
  else (errNotInit, [])

/-- `ExtendedJiraManager.jira_delete_issue`. -/
def jira_delete_issue (m : Manager) (net : Net) (issue_key : Json) :
    Json × List Request :=
  if is_ready m then
    simpleCall net "DELETE" (murl m ++ "/rest/api/2/issue/" ++ pyStr issue_key) none
      (fun _ => .ok (.obj [("success", .str ("Deleted issue " ++ pyStr issue_key))]))
  else (errNotInit, [])

/-- `ExtendedJiraManager.jira_get_boards`. -/
def jira_get_boards (m : Manager) (net : Net) : Json × List Request :=
  if is_ready m then
    simpleCall net "GET" (murl m ++ "/rest/agile/1.0/board") none (fun r => .ok r.json)
  else (errNotInit, [])

/-- `ExtendedJiraManager.jira_get_board_issues`. -/
def jira_get_board_issues (m : Manager) (net : Net) (board_id : Json) :
    Json × List Request :=
  if is_ready m then
    simpleCall net "GET" (murl m ++ "/rest/agile/1.0/board/" ++ pyStr board_id ++ "/issue")
      none (fun r => .ok r.json)
  else (errNotInit, [])

/-- `ExtendedJiraManager.jira_get_project_versions`. -/
def jira_get_project_versions (m : Manager) (net : Net) (project_key : Json) :
    Json × List Request :=
  if is_ready m then
    simpleCall net "GET"
      (murl m ++ "/rest/api/2/project/" ++ pyStr project_key ++ "/versions") none
      (fun r => .ok (.obj [("versions", r.json)]))
  else (errNotInit, [])

/-- `ExtendedJiraManager.jira_create_version`. -/
def jira_create_version (m : Manager) (net : Net) (project_key name description : Json) :
    Json × List Request :=
  if is_ready m then
    simpleCall net "POST" (murl m ++ "/rest/api/2/version")
      (some (.obj [("name", name), ("description", description), ("project", project_key)]))
      (fun r => .ok (.obj [("success", .str ("Created version " ++ pyStr name)),
                           ("version", r.json)]))
  else (errNotInit, [])

/-- `ExtendedJiraManager.jira_get_user_by_username`. -/
def jira_get_user_by_username (m : Manager) (net : Net) (username : Json) :
    Json × List Request :=
  if is_ready m then
    simpleCall net "GET" (murl m ++ "/rest/api/2/user?username=" ++ pyStr username) none
      (fun r => .ok r.json)
  else (errNotInit, [])

/-- The field-filter comprehension of `jira_search_fields`
(`query.lower() in f.get('name', '').lower()`). -/
def filter_fields_by_query (fs : List Json) (ql : String) :
    Except String (List Json) :=
  match fs with
  | [] => .ok []
  | f :: rest =>
      match f with
      | .obj kvs =>
          match (lookup? kvs "name").getD (.str "") with
          | .str s => do
              let tail ← filter_fields_by_query rest ql
              if pyInStr ql (pyLower s) then .ok (f :: tail) else .ok tail
          | _ => .error "AttributeError"
      | _ => .error "AttributeError"

/-- `ExtendedJiraManager.jira_search_fields`. -/
def jira_search_fields (m : Manager) (net : Net) (query : Json) :
    Json × List Request :=
  if is_ready m then
    simpleCall net "GET" (murl m ++ "/rest/api/2/field") none
      (fun r =>
        match query with
        | .str q =>
            match r.json with
            | .arr fs => do
                let mf ← filter_fields_by_query fs (pyLower q)
                .ok (.obj [("fields", .arr mf)])
            | _ => .error "TypeError"
        | _ => .error "AttributeError")
  else (errNotInit, [])

/-- `ExtendedJiraManager.jira_get_fields`. -/
def jira_get_fields (m : Manager) (net : Net) : Json × List Request :=
  if is_ready m then
    simpleCall net "GET" (murl m ++ "/rest/api/2/field") none
      (fun r => .ok (.obj [("fields", r.json)]))
  else (errNotInit, [])

/-- The custom-field filter of `jira_get_custom_fields`
(`f.get('custom', False)` truthy). -/
def filter_custom_fields (fs : List Json) : Except String (List Json) :=
  match fs with
  | [] => .ok []
  | f :: rest =>
      match f with
      | .obj kvs => do
          let tail ← filter_custom_fields rest
          if truthy ((lookup? kvs "custom").getD (.bool false)) then .ok (f :: tail)
          else .ok tail
      | _ => .error "AttributeError"

/-- `ExtendedJiraManager.jira_get_custom_fields`. -/
def jira_get_custom_fields (m : Manager) (net : Net) : Json × List Request :=
  if is_ready m then
    simpleCall net "GET" (murl m ++ "/rest/api/2/field") none
      (fun r =>
        match r.json with
        | .arr fs => do
            let cf ← filter_custom_fields fs
            .ok (.obj [("custom_fields", .arr cf)])
        | _ => .error "TypeError")
  else (errNotInit, [])

/-- The Epic-Link lookup loop of `jira_link_to_epic`:
`field.get('name') == 'Epic Link'` then `field['id']` (a `KeyError` when the
matching field has no id). -/
def find_epic_link_field (fs : List Json) : Except String Json :=
  match fs with
  | [] => .ok .null
  | f :: rest =>
      match f with
      | .obj kvs =>
          match (lookup? kvs "name").getD .null with
          | .str s =>
              if s == "Epic Link" then
                match lookup? kvs "id" with
                | some v => .ok v
                | none => .error "KeyError"
              else find_epic_link_field rest
          | _ => find_epic_link_field rest
      | _ => .error "AttributeError"

/-- `ExtendedJiraManager.jira_link_to_epic`: a GET of the field list followed
by a PUT of the issue keyed by the Epic-Link field id. -/
def jira_link_to_epic (m : Manager) (net : Net) (issue_key epic_key : Json) :
    Json × List Request :=
  if is_ready m then
    let req1 : Request := ⟨"GET", murl m ++ "/rest/api/2/field", none⟩
    match net req1 with
    | .error e => (errMsg e, [req1])
    | .ok r =>
        match r.json with
        | .arr fs =>
            match find_epic_link_field fs with
            | .error e => (errMsg e, [req1])
            | .ok elf =>
                if truthy elf then
                  match elf with
                  | .str fid =>
                      let req2 : Request :=
                        ⟨"PUT", murl m ++ "/rest/api/2/issue/" ++ pyStr issue_key,
                         some (.obj [("fields", .obj [(fid, epic_key)])])⟩
                      match net req2 with
                      | .ok _ =>
                          (.obj [("success", .str ("Linked " ++ pyStr issue_key ++
                            " to epic " ++ pyStr epic_key))], [req1, req2])
                      | .error e => (errMsg e, [req1, req2])
                  | _ => (errMsg "TypeError", [req1])
                else (errMsg "Epic Link field not found", [req1])
        | _ => (errMsg "TypeError", [req1])
  else (errNotInit, [])

/-- `ExtendedJiraManager.jira_get_epic_issues`: delegates to `jira_search`
with `jql = f'"Epic Link" = {epic_key}'` and `max_results = 100`. -/
def jira_get_epic_issues (m : Manager) (net : Net) (epic_key : Json) :
    Json × List Request :=
  if is_ready m then
    jira_search m net (.str ("\"Epic Link\" = " ++ pyStr epic_key)) (.num 100)
  else (errNotInit, [])

/-- `ExtendedJiraManager.jira_create_issue_link`. -/
def jira_create_issue_link (m : Manager) (net : Net)
    (inward_issue outward_issue link_type : Json) : Json × List Request :=
  if is_ready m then
    simpleCall net "POST" (murl m ++ "/rest/api/2/issueLink")
      (some (.obj [("type", .obj [("name", link_type)]),
                   ("inwardIssue", .obj [("key", inward_issue)]),
                   ("outwardIssue", .obj [("key", outward_issue)])]))
      (fun _ => .ok (.obj [("success", .str ("Created " ++ pyStr link_type ++
        " link between " ++ pyStr inward_issue ++ " and " ++ pyStr outward_issue))]))
  else (errNotInit, [])

/-- `ExtendedJiraManager.jira_get_issue_link_types`. -/
def jira_get_issue_link_types (m : Manager) (net : Net) : Json × List Request :=
  if is_ready m then
    simpleCall net "GET" (murl m ++ "/rest/api/2/issueLinkType") none
      (fun r => .ok r.json)
  else (errNotInit, [])

/-- `ExtendedJiraManager.jira_create_sprint`. -/
def jira_create_sprint (m : Manager) (net : Net) (board_id name goal : Json) :
    Json × List Request :=
  if is_ready m then
    simpleCall net "POST" (murl m ++ "/rest/agile/1.0/sprint")
      (some (.obj [("name", name), ("originBoardId", board_id), ("goal", goal)]))
      (fun r => .ok r.json)
  else (errNotInit, [])

/-- `ExtendedJiraManager.jira_get_sprint_issues`. -/
def jira_get_sprint_issues (m : Manager) (net : Net) (sprint_id : Json) :
    Json × List Request :=
  if is_ready m then
    simpleCall net "GET" (murl m ++ "/rest/agile/1.0/sprint/" ++ pyStr sprint_id ++ "/issue")
      none (fun r => .ok r.json)
  else (errNotInit, [])

/-- `ExtendedJiraManager.jira_get_all_sprints_from_board`. -/
def jira_get_all_sprints_from_board (m : Manager) (net : Net) (board_id : Json) :
    Json × List Request :=
  if is_ready m then
    simpleCall net "GET" (murl m ++ "/rest/agile/1.0/board/" ++ pyStr board_id ++ "/sprint")
      none (fun r => .ok r.json)
  else (errNotInit, [])

/-- `ExtendedJiraManager.jira_get_attachments`:
`issue_data.get('fields', {}).get('attachment', [])`. -/
def jira_get_attachments (m : Manager) (net : Net) (issue_key : Json) :
    Json × List Request :=
  if is_ready m then
    simpleCall net "GET"
      (murl m ++ "/rest/api/2/issue/" ++ pyStr issue_key ++ "?fields=attachment") none
      (fun r => do
        let fields ← pyGet r.json "fields" (.obj [])
        let atts ← pyGet fields "attachment" (.arr [])
        .ok (.obj [("attachments", atts)]))
  else (errNotInit, [])

/-- `ExtendedJiraManager.jira_download_attachment` (the `filename` argument
is accepted and unused by the source). -/
def jira_download_attachment (m : Manager) (net : Net) (attachment_id _filename : Json) :
    Json × List Request :=
  if is_ready m then
    simpleCall net "GET" (murl m ++ "/rest/api/2/attachment/" ++ pyStr attachment_id) none
      (fun r => .ok (.obj [("success", .str ("Attachment " ++ pyStr attachment_id ++
        " info retrieved")), ("size", .num (r.contentLength : Int))]))
  else (errNotInit, [])

/-- `ExtendedJiraManager.jira_delete_attachment`. -/
def jira_delete_attachment (m : Manager) (net : Net) (attachment_id : Json) :
    Json × List Request :=
  if is_ready m then
    simpleCall net "DELETE" (murl m ++ "/rest/api/2/attachment/" ++ pyStr attachment_id)
      none
      (fun _ => .ok (.obj [("success", .str ("Attachment " ++ pyStr attachment_id ++
        " deleted"))]))
  else (errNotInit, [])

/-- `ExtendedJiraManager.jira_update_comment`. -/
def jira_update_comment (m : Manager) (net : Net) (issue_key comment_id comment : Json) :
    Json × List Request :=
  if is_ready m then
    simpleCall net "PUT"
      (murl m ++ "/rest/api/2/issue/" ++ pyStr issue_key ++ "/comment/" ++ pyStr comment_id)
      (some (.obj [("body", comment)]))
      (fun _ => .ok (.obj [("success", .str ("Comment " ++ pyStr comment_id ++ " updated"))]))
  else (errNotInit, [])

/-- `ExtendedJiraManager.jira_delete_comment`. -/
def jira_delete_comment (m : Manager) (net : Net) (issue_key comment_id : Json) :
    Json × List Request :=
  if is_ready m then
    simpleCall net "DELETE"
      (murl m ++ "/rest/api/2/issue/" ++ pyStr issue_key ++ "/comment/" ++ pyStr comment_id)
      none
      (fun _ => .ok (.obj [("success", .str ("Comment " ++ pyStr comment_id ++ " deleted"))]))
  else (errNotInit, [])

/-- `ExtendedJiraManager.jira_get_watchers`. -/
def jira_get_watchers (m : Manager) (net : Net) (issue_key : Json) :
    Json × List Request :=
  if is_ready m then
    simpleCall net "GET" (murl m ++ "/rest/api/2/issue/" ++ pyStr issue_key ++ "/watchers")
      none (fun r => .ok r.json)
  else (errNotInit, [])

/-- `ExtendedJiraManager.jira_add_watcher` (the raw username value is the
JSON body). -/
def jira_add_watcher (m : Manager) (net : Net) (issue_key username : Json) :
    Json × List Request :=
  if is_ready m then
    simpleCall net "POST" (murl m ++ "/rest/api/2/issue/" ++ pyStr issue_key ++ "/watchers")
      (some username)
      (fun _ => .ok (.obj [("success", .str ("Added " ++ pyStr username ++
        " as watcher to " ++ pyStr issue_key))]))
  else (errNotInit, [])

/-- `ExtendedJiraManager.jira_remove_watcher`. -/
def jira_remove_watcher (m : Manager) (net : Net) (issue_key username : Json) :
    Json × List Request :=
  if is_ready m then
    simpleCall net "DELETE"
      (murl m ++ "/rest/api/2/issue/" ++ pyStr issue_key ++ "/watchers?username=" ++
        pyStr username) none
      (fun _ => .ok (.obj [("success", .str ("Removed " ++ pyStr username ++
        " as watcher from " ++ pyStr issue_key))]))
  else (errNotInit, [])

/-- `ExtendedJiraManager.jira_clone_issue`: a GET of the original issue
followed by a POST of the cloned fields
(`target_project = project_key or fields.get("project", {}).get("key")`). -/
def jira_clone_issue (m : Manager) (net : Net) (issue_key summary project_key : Json) :
    Json × List Request :=
  if is_ready m then
    let orig := jira_get_issue m net issue_key
    if pyHasKey orig.1 "error" then orig
    else
      match (do
        let fields ← pyGet orig.1 "fields" (.obj [])
        let target ←
          if truthy project_key then pure project_key
          else do
            let pr ← pyGet fields "project" (.obj [])
            pyGet pr "key" .null
        let desc ← pyGet fields "description" (.str "")
        let ity ← pyGet fields "issuetype" (.obj [("name", .str "Task")])
        let prio ← pyGet fields "priority" (.obj [("name", .str "Medium")])
        pure (Json.obj [("fields", .obj [
          ("project", .obj [("key", target)]),
          ("summary", summary),
          ("description", desc),
          ("issuetype", ity),
          ("priority", prio)])]) : Except String Json) with
      | .error e => (errMsg e, orig.2)
      | .ok clone_data =>
          let req : Request := ⟨"POST", murl m ++ "/rest/api/2/issue", some clone_data⟩
          match net req with
          | .error e => (errMsg e, orig.2 ++ [req])
          | .ok r =>
              match pyGet r.json "key" .null with
              | .error e => (errMsg e, orig.2 ++ [req])
              | .ok nk =>
                  (.obj [("success", .str ("Cloned " ++ pyStr issue_key ++ " as " ++
                    pyStr nk)), ("new_issue", r.json)], orig.2 ++ [req])
  else (errNotInit, [])

/-- `ExtendedJiraManager.jira_assign_issue`. -/
def jira_assign_issue (m : Manager) (net : Net) (issue_key assignee : Json) :
    Json × List Request :=
  if is_ready m then
    simpleCall net "PUT" (murl m ++ "/rest/api/2/issue/" ++ pyStr issue_key ++ "/assignee")
      (some (.obj [("name", assignee)]))
      (fun _ => .ok (.obj [("success", .str ("Assigned " ++ pyStr issue_key ++ " to " ++
        pyStr assignee))]))
  else (errNotInit, [])

/-- `ExtendedJiraManager.jira_unassign_issue` (`{"name": None}`). -/
def jira_unassign_issue (m : Manager) (net : Net) (issue_key : Json) :
    Json × List Request :=
  if is_ready m then
    simpleCall net "PUT" (murl m ++ "/rest/api/2/issue/" ++ pyStr issue_key ++ "/assignee")
      (some (.obj [("name", .null)]))
      (fun _ => .ok (.obj [("success", .str ("Unassigned " ++ pyStr issue_key))]))
  else (errNotInit, [])

/-- `ExtendedJiraManager.jira_update_sprint`: only truthy `name` / `goal`
enter the payload. -/
def jira_update_sprint (m : Manager) (net : Net) (sprint_id name goal : Json) :
    Json × List Request :=
  if is_ready m then
    let data : CookieDict :=
      (if truthy name then [("name", name)] else []) ++
      (if truthy goal then [("goal", goal)] else [])
    simpleCall net "PUT" (murl m ++ "/rest/agile/1.0/sprint/" ++ pyStr sprint_id)
      (some (.obj data))
      (fun _ => .ok (.obj [("success", .str ("Updated sprint " ++ pyStr sprint_id))]))
  else (errNotInit, [])

/-- `ExtendedJiraManager.jira_start_sprint`: `{"state": "active"}` plus the
truthy dates. -/
def jira_start_sprint (m : Manager) (net : Net) (sprint_id start_date end_date : Json) :
    Json × List Request :=
  if is_ready m then
    let data : CookieDict :=
      [("state", .str "active")] ++
      (if truthy start_date then [("startDate", start_date)] else []) ++
      (if truthy end_date then [("endDate", end_date)] else [])
    simpleCall net "PUT" (murl m ++ "/rest/agile/1.0/sprint/" ++ pyStr sprint_id)
      (some (.obj data))
      (fun _ => .ok (.obj [("success", .str ("Started sprint " ++ pyStr sprint_id))]))
  else (errNotInit, [])

/-- `ExtendedJiraManager.jira_complete_sprint` (`{"state": "closed"}`). -/
def jira_complete_sprint (m : Manager) (net : Net) (sprint_id : Json) :
    Json × List Request :=
  if is_ready m then
    simpleCall net "PUT" (murl m ++ "/rest/agile/1.0/sprint/" ++ pyStr sprint_id)
      (some (.obj [("state", .str "closed")]))
      (fun _ => .ok (.obj [("success", .str ("Completed sprint " ++ pyStr sprint_id))]))
  else (errNotInit, [])

/-- `ExtendedJiraManager.jira_update_worklog`: only truthy `time_spent` /
`comment` enter the payload. -/
def jira_update_worklog (m : Manager) (net : Net)
    (issue_key worklog_id time_spent comment : Json) : Json × List Request :=
  if is_ready m then
    let data : CookieDict :=
      (if truthy time_spent then [("timeSpent", time_spent)] else []) ++
      (if truthy comment then [("comment", comment)] else [])
    simpleCall net "PUT"
      (murl m ++ "/rest/api/2/issue/" ++ pyStr issue_key ++ "/worklog/" ++ pyStr worklog_id)
      (some (.obj data))
      (fun _ => .ok (.obj [("success", .str ("Updated worklog " ++ pyStr worklog_id))]))
  else (errNotInit, [])

/-- `ExtendedJiraManager.jira_delete_worklog`. -/
def jira_delete_worklog (m : Manager) (net : Net) (issue_key worklog_id : Json) :
    Json × List Request :=
  if is_ready m then
    simpleCall net "DELETE"
      (murl m ++ "/rest/api/2/issue/" ++ pyStr issue_key ++ "/worklog/" ++ pyStr worklog_id)
      none
      (fun _ => .ok (.obj [("success", .str ("Deleted worklog " ++ pyStr worklog_id))]))
  else (errNotInit, [])

/-- The `issue_updates` construction loop of `jira_batch_create_issues`. -/
def build_issue_updates (issues : List Json) : Except String (List Json) :=
  match issues with
  | [] => .ok []
  | i :: rest =>
      match i with
      | .obj kvs => do
          let tail ← build_issue_updates rest
          .ok (Json.obj [("fields", .obj [
            ("project", .obj [("key", (lookup? kvs "project_key").getD .null)]),
            ("summary", (lookup? kvs "summary").getD .null),
            ("description", (lookup? kvs "description").getD (.str "")),
            ("issuetype", .obj [("name", (lookup? kvs "issue_type").getD (.str "Task"))])])]
            :: tail)
      | _ => .error "AttributeError"

/-- `ExtendedJiraManager.jira_batch_create_issues`. -/
def jira_batch_create_issues (m : Manager) (net : Net) (issues : Json) :
    Json × List Request :=
  if is_ready m then
    match issues with
    | .arr ilist =>
        match build_issue_updates ilist with
        | .error e => (errMsg e, [])
        | .ok ups =>
            let req : Request := ⟨"POST", murl m ++ "/rest/api/2/issue/bulk",
              some (.obj [("issueUpdates", .arr ups)])⟩
            match net req with
            | .error e => (errMsg e, [req])
            | .ok r =>
                match (do
                  let created ← pyGet r.json "issues" (.arr [])
                  pyLen created : Except String Nat) with
                | .error e => (errMsg e, [req])
                | .ok n =>
                    (.obj [("success", .str ("Created " ++ toString n ++ " issues")),
                           ("issues", r.json)], [req])
    | _ => (errMsg "TypeError", [])
  else (errNotInit, [])

/-- The per-version loop of `jira_batch_create_versions`: each version calls
`jira_create_version`; an error result is appended to `errors`, and a
non-dict version raises out of the inner `except` clause itself (the
message uses `version.get('name')` again) to the outer handler. -/
def batch_versions_loop (m : Manager) (net : Net) (project_key : Json)
    (versions : List Json) :
    Except (String × List Request) (List Json × List Json × List Request) :=
  match versions with
  | [] => .ok ([], [], [])
  | v :: rest =>
      match v with
      | .obj kvs =>
          let name := (lookup? kvs "name").getD .null
          let desc := (lookup? kvs "description").getD (.str "")
          let res := jira_create_version m net project_key name desc
          let created : List Json :=
            if pyHasKey res.1 "error" then [] else [res.1]
          let errs : List Json :=
            if pyHasKey res.1 "error" then
              [.str ("Version \x27" ++ pyStr name ++ "\x27: " ++
                pyStr ((match res.1 with
                        | .obj ekvs => (lookup? ekvs "error").getD .null
                        | _ => .null)))]
            else []
          match batch_versions_loop m net project_key rest with
          | .ok (cs, es, rs) => .ok (created ++ cs, errs ++ es, res.2 ++ rs)
          | .error (e, rs) => .error (e, res.2 ++ rs)
      | _ => .error ("AttributeError", [])

/-- `ExtendedJiraManager.jira_batch_create_versions`. -/
def jira_batch_create_versions (m : Manager) (net : Net) (project_key versions : Json) :
    Json × List Request :=
  if is_ready m then
    match versions with
    | .arr vlist =>
        match batch_versions_loop m net project_key vlist with
        | .error (e, rs) => (errMsg e, rs)
        | .ok (cs, es, rs) =>
            (.obj [("success", .str ("Created " ++ toString cs.length ++ " versions")),
                   ("created", .arr cs), ("errors", .arr es)], rs)
    | _ => (errMsg "TypeError", [])
  else (errNotInit, [])

/-- The per-key loop of `jira_batch_get_changelogs`: one GET per key; a
failed request or a non-dict body contributes to `errors` and the loop
continues (dictionary keys render through `pyStr`). -/
def batch_changelogs_loop (m : Manager) (net : Net) (keys : List Json)
    (changelogs : CookieDict) (errors : List Json) (reqs : List Request) :
    CookieDict × List Json × List Request :=
  match keys with
  | [] => (changelogs, errors, reqs)
  | k :: rest =>
      let req : Request :=
        ⟨"GET", murl m ++ "/rest/api/2/issue/" ++ pyStr k ++ "?expand=changelog", none⟩
      match net req with
      | .error e =>
          batch_changelogs_loop m net rest changelogs
            (errors ++ [.str ("Issue " ++ pyStr k ++ ": " ++ e)]) (reqs ++ [req])
      | .ok r =>
          match pyGet r.json "changelog" (.obj []) with
          | .error e =>
              batch_changelogs_loop m net rest changelogs
                (errors ++ [.str ("Issue " ++ pyStr k ++ ": " ++ e)]) (reqs ++ [req])
          | .ok cl =>
              batch_changelogs_loop m net rest (dictInsert changelogs (pyStr k) cl)
                errors (reqs ++ [req])

/-- `ExtendedJiraManager.jira_batch_get_changelogs`. -/
def jira_batch_get_changelogs (m : Manager) (net : Net) (issue_keys : Json) :
    Json × List Request :=
  if is_ready m then
    match issue_keys with
    | .arr keys =>
        let (cls, es, rs) := batch_changelogs_loop m net keys [] [] []
        (.obj [("changelogs", .obj cls), ("errors", .arr es),
               ("success", .str ("Retrieved changelogs for " ++ toString cls.length ++
                 " issues"))], rs)
    | _ => (errMsg "TypeError", [])
  else (errNotInit, [])

/-- `ExtendedJiraManager.jira_create_remote_issue_link`. -/
def jira_create_remote_issue_link (m : Manager) (net : Net)
    (issue_key url title summary : Json) : Json × List Request :=
  if is_ready m then
    simpleCall net "POST"
      (murl m ++ "/rest/api/2/issue/" ++ pyStr issue_key ++ "/remotelink")
      (some (.obj [("object", .obj [("url", url), ("title", title),
                                    ("summary", summary)])]))
      (fun _ => .ok (.obj [("success", .str ("Created remote link \x27" ++ pyStr title ++
        "\x27 for " ++ pyStr issue_key))]))
  else (errNotInit, [])

/-- `ExtendedJiraManager.jira_remove_issue_link`. -/
def jira_remove_issue_link (m : Manager) (net : Net) (link_id : Json) :
    Json × List Request :=
  if is_ready m then
    simpleCall net "DELETE" (murl m ++ "/rest/api/2/issueLink/" ++ pyStr link_id) none
      (fun _ => .ok (.obj [("success", .str ("Removed issue link " ++ pyStr link_id))]))
  else (errNotInit, [])

/-- One invocation of a tool method of `ExtendedJiraManager`, with the
argument values the dispatcher hands to it. -/
inductive ToolCall where
  | search (jql max_results : Json) : ToolCall
  | get_issue (issue_key : Json) : ToolCall
  | get_user_profile : ToolCall
  | add_comment (issue_key comment : Json) : ToolCall
  | get_comments (issue_key : Json) : ToolCall
  | get_projects : ToolCall
  | get_project (project_key : Json) : ToolCall
  | get_transitions (issue_key : Json) : ToolCall
  | get_fields : ToolCall
  | search_fields (query : Json) : ToolCall
  | get_custom_fields : ToolCall
  | get_project_issues (project_key max_results : Json) : ToolCall
  | transition_issue (issue_key transition_name : Json) : ToolCall
  | get_worklog (issue_key : Json) : ToolCall
  | add_worklog (issue_key time_spent comment : Json) : ToolCall
  | create_issue (project_key summary description issue_type : Json) : ToolCall
  | update_issue (issue_key summary description : Json) : ToolCall
  | delete_issue (issue_key : Json) : ToolCall
  | get_boards : ToolCall
  | get_board_issues (board_id : Json) : ToolCall
  | get_project_versions (project_key : Json) : ToolCall
  | create_version (project_key name description : Json) : ToolCall
  | get_user_by_username (username : Json) : ToolCall
  | link_to_epic (issue_key epic_key : Json) : ToolCall
  | get_epic_issues (epic_key : Json) : ToolCall
  | create_issue_link (inward_issue outward_issue link_type : Json) : ToolCall
  | get_issue_link_types : ToolCall
  | create_sprint (board_id name goal : Json) : ToolCall
  | get_sprint_issues (sprint_id : Json) : ToolCall
  | get_all_sprints_from_board (board_id : Json) : ToolCall
  | get_attachments (issue_key : Json) : ToolCall
  | download_attachment (attachment_id filename : Json) : ToolCall
  | delete_attachment (attachment_id : Json) : ToolCall
  | update_comment (issue_key comment_id comment : Json) : ToolCall
  | delete_comment (issue_key comment_id : Json) : ToolCall
  | get_watchers (issue_key : Json) : ToolCall
  | add_watcher (issue_key username : Json) : ToolCall
  | remove_watcher (issue_key username : Json) : ToolCall
  | clone_issue (issue_key summary project_key : Json) : ToolCall
  | assign_issue (issue_key assignee : Json) : ToolCall
  | unassign_issue (issue_key : Json) : ToolCall
  | update_sprint (sprint_id name goal : Json) : ToolCall
  | start_sprint (sprint_id start_date end_date : Json) : ToolCall
  | complete_sprint (sprint_id : Json) : ToolCall
  | update_worklog (issue_key worklog_id time_spent comment : Json) : ToolCall
  | delete_worklog (issue_key worklog_id : Json) : ToolCall
  | batch_create_issues (issues : Json) : ToolCall
  | batch_create_versions (project_key versions : Json) : ToolCall
  | batch_get_changelogs (issue_keys : Json) : ToolCall
  | create_remote_issue_link (issue_key url title summary : Json) : ToolCall
  | remove_issue_link (link_id : Json) : ToolCall

/-- Run one tool method of `ExtendedJiraManager`, returning its JSON result
and the outbound HTTP requests it made. -/
def runTool (m : Manager) (net : Net) : ToolCall → Json × List Request
  | .search jql max_results => jira_search m net jql max_results
  | .get_issue issue_key => jira_get_issue m net issue_key
  | .get_user_profile => jira_get_user_profile m net
  | .add_comment issue_key comment => jira_add_comment m net issue_key comment
  | .get_comments issue_key => jira_get_comments m net issue_key
  | .get_projects => jira_get_projects m net
  | .get_project project_key => jira_get_project m net project_key
  | .get_transitions issue_key => jira_get_transitions m net issue_key
  | .get_fields => jira_get_fields m net
  | .search_fields query => jira_search_fields m net query
  | .get_custom_fields => jira_get_custom_fields m net
  | .get_project_issues project_key max_results =>
      jira_get_project_issues m net project_key max_results
  | .transition_issue issue_key transition_name =>
      jira_transition_issue m net issue_key transition_name
  | .get_worklog issue_key => jira_get_worklog m net issue_key
  | .add_worklog issue_key time_spent comment =>
      jira_add_worklog m net issue_key time_spent comment
  | .create_issue project_key summary description issue_type =>
      jira_create_issue m net project_key summary description issue_type
  | .update_issue issue_key summary description =>
      jira_update_issue m net issue_key summary description
  | .delete_issue issue_key => jira_delete_issue m net issue_key
  | .get_boards => jira_get_boards m net
  | .get_board_issues board_id => jira_get_board_issues m net board_id
  | .get_project_versions project_key => jira_get_project_versions m net project_key
  | .create_version project_key name description =>
      jira_create_version m net project_key name description
  | .get_user_by_username username => jira_get_user_by_username m net username
  | .link_to_epic issue_key epic_key => jira_link_to_epic m net issue_key epic_key
  | .get_epic_issues epic_key => jira_get_epic_issues m net epic_key
  | .create_issue_link inward_issue outward_issue link_type =>
      jira_create_issue_link m net inward_issue outward_issue link_type
  | .get_issue_link_types => jira_get_issue_link_types m net
  | .create_sprint board_id name goal => jira_create_sprint m net board_id name goal
  | .get_sprint_issues sprint_id => jira_get_sprint_issues m net sprint_id
  | .get_all_sprints_from_board board_id =>
      jira_get_all_sprints_from_board m net board_id
  | .get_attachments issue_key => jira_get_attachments m net issue_key
  | .download_attachment attachment_id filename =>
      jira_download_attachment m net attachment_id filename
  | .delete_attachment attachment_id => jira_delete_attachment m net attachment_id
  | .update_comment issue_key comment_id comment =>
      jira_update_comment m net issue_key comment_id comment
  | .delete_comment issue_key comment_id => jira_delete_comment m net issue_key comment_id
  | .get_watchers issue_key => jira_get_watchers m net issue_key
  | .add_watcher issue_key username => jira_add_watcher m net issue_key username
  | .remove_watcher issue_key username => jira_remove_watcher m net issue_key username
  | .clone_issue issue_key summary project_key =>
      jira_clone_issue m net issue_key summary project_key
  | .assign_issue issue_key assignee => jira_assign_issue m net issue_key assignee
  | .unassign_issue issue_key => jira_unassign_issue m net issue_key
  | .update_sprint sprint_id name goal => jira_update_sprint m net sprint_id name goal
  | .start_sprint sprint_id start_date end_date =>
      jira_start_sprint m net sprint_id start_date end_date
  | .complete_sprint sprint_id => jira_complete_sprint m net sprint_id
  | .update_worklog issue_key worklog_id time_spent comment =>
      jira_update_worklog m net issue_key worklog_id time_spent comment
  | .delete_worklog issue_key worklog_id => jira_delete_worklog m net issue_key worklog_id
  | .batch_create_issues issues => jira_batch_create_issues m net issues
  | .batch_create_versions project_key versions =>
      jira_batch_create_versions m net project_key versions
  | .batch_get_changelogs issue_keys => jira_batch_get_changelogs m net issue_keys
  | .create_remote_issue_link issue_key url title summary =>
      jira_create_remote_issue_link m net issue_key url title summary
  | .remove_issue_link link_id => jira_remove_issue_link m net link_id

/-- `arguments.get(k, dflt)` as used throughout `execute_tool`. -/
def argD (args : CookieDict) (k : String) (dflt : Json) : Json :=
  (lookup? args k).getD dflt

/-- `ExtendedJiraManager.execute_tool`: the name dispatch, with the per-tool
argument extraction and defaults exactly as in the source if/elif chain. -/
def execute_tool (m : Manager) (net : Net) (tool_name : String)
    (arguments : CookieDict) : Json × List Request :=
  if tool_name == "jira_search" then
    jira_search m net (argD arguments "jql" (.str ""))
      (argD arguments "max_results" (.num 50))
  else if tool_name == "jira_get_issue" then
    jira_get_issue m net (argD arguments "issue_key" (.str ""))
  else if tool_name == "jira_get_user_profile" then
    jira_get_user_profile m net
  else if tool_name == "jira_add_comment" then
    jira_add_comment m net (argD arguments "issue_key" (.str ""))
      (argD arguments "comment" (.str ""))
  else if tool_name == "jira_get_comments" then
    jira_get_comments m net (argD arguments "issue_key" (.str ""))
  else if tool_name == "jira_get_projects" then
    jira_get_projects m net
  else if tool_name == "jira_get_project" then
    jira_get_project m net (argD arguments "project_key" (.str ""))
  else if tool_name == "jira_get_transitions" then
    jira_get_transitions m net (argD arguments "issue_key" (.str ""))
  else if tool_name == "jira_get_fields" then
    jira_get_fields m net
  else if tool_name == "jira_search_fields" then
    jira_search_fields m net (argD arguments "query" (.str ""))
  else if tool_name == "jira_get_custom_fields" then
    jira_get_custom_fields m net
  else if tool_name == "jira_get_project_issues" then
    jira_get_project_issues m net (argD arguments "project_key" (.str ""))
      (argD arguments "max_results" (.num 50))
  else if tool_name == "jira_transition_issue" then
    jira_transition_issue m net (argD arguments "issue_key" (.str ""))
      (argD arguments "transition_name" (.str ""))
  else if tool_name == "jira_get_worklog" then
    jira_get_worklog m net (argD arguments "issue_key" (.str ""))
  else if tool_name == "jira_add_worklog" then
    jira_add_worklog m net (argD arguments "issue_key" (.str ""))
      (argD arguments "time_spent" (.str "")) (argD arguments "comment" (.str ""))
  else if tool_name == "jira_create_issue" then
    jira_create_issue m net (argD arguments "project_key" (.str ""))
      (argD arguments "summary" (.str "")) (argD arguments "description" (.str ""))
      (argD arguments "issue_type" (.str "Task"))
  else if tool_name == "jira_update_issue" then
    jira_update_issue m net (argD arguments "issue_key" (.str ""))
      (argD arguments "summary" .null) (argD arguments "description" .null)
  else if tool_name == "jira_delete_issue" then
    jira_delete_issue m net (argD arguments "issue_key" (.str ""))
  else if tool_name == "jira_get_boards" then
    jira_get_boards m net
  else if tool_name == "jira_get_board_issues" then
    jira_get_board_issues m net (argD arguments "board_id" (.num 0))
  else if tool_name == "jira_get_project_versions" then
    jira_get_project_versions m net (argD arguments "project_key" (.str ""))
  else if tool_name == "jira_create_version" then
    jira_create_version m net (argD arguments "project_key" (.str ""))
      (argD arguments "name" (.str "")) (argD arguments "description" (.str ""))
  else if tool_name == "jira_get_user_by_username" then
    jira_get_user_by_username m net (argD arguments "username" (.str ""))
  else if tool_name == "jira_link_to_epic" then
    jira_link_to_epic m net (argD arguments "issue_key" (.str ""))
      (argD arguments "epic_key" (.str ""))
  else if tool_name == "jira_get_epic_issues" then
    jira_get_epic_issues m net (argD arguments "epic_key" (.str ""))
  else if tool_name == "jira_create_issue_link" then
    jira_create_issue_link m net (argD arguments "inward_issue" (.str ""))
      (argD arguments "outward_issue" (.str "")) (argD arguments "link_type" (.str "Relates"))
  else if tool_name == "jira_get_issue_link_types" then
    jira_get_issue_link_types m net
  else if tool_name == "jira_create_sprint" then
    jira_create_sprint m net (argD arguments "board_id" (.num 0))
      (argD arguments "name" (.str "")) (argD arguments "goal" (.str ""))
  else if tool_name == "jira_get_sprint_issues" then
    jira_get_sprint_issues m net (argD arguments "sprint_id" (.num 0))
  else if tool_name == "jira_get_all_sprints_from_board" then
    jira_get_all_sprints_from_board m net (argD arguments "board_id" (.num 0))
  else if tool_name == "jira_get_attachments" then
    jira_get_attachments m net (argD arguments "issue_key" (.str ""))
  else if tool_name == "jira_download_attachment" then
    jira_download_attachment m net (argD arguments "attachment_id" (.str ""))
      (argD arguments "filename" .null)
  else if tool_name == "jira_delete_attachment" then
    jira_delete_attachment m net (argD arguments "attachment_id" (.str ""))
  else if tool_name == "jira_update_comment" then
    jira_update_comment m net (argD arguments "issue_key" (.str ""))
      (argD arguments "comment_id" (.str "")) (argD arguments "comment" (.str ""))
  else if tool_name == "jira_delete_comment" then
    jira_delete_comment m net (argD arguments "issue_key" (.str ""))
      (argD arguments "comment_id" (.str ""))
  else if tool_name == "jira_get_watchers" then
    jira_get_watchers m net (argD arguments "issue_key" (.str ""))
  else if tool_name == "jira_add_watcher" then
    jira_add_watcher m net (argD arguments "issue_key" (.str ""))
      (argD arguments "username" (.str ""))
  else if tool_name == "jira_remove_watcher" then
    jira_remove_watcher m net (argD arguments "issue_key" (.str ""))
      (argD arguments "username" (.str ""))
  else if tool_name == "jira_clone_issue" then
    jira_clone_issue m net (argD arguments "issue_key" (.str ""))
      (argD arguments "summary" (.str "")) (argD arguments "project_key" .null)
  else if tool_name == "jira_assign_issue" then
    jira_assign_issue m net (argD arguments "issue_key" (.str ""))
      (argD arguments "assignee" (.str ""))
  else if tool_name == "jira_unassign_issue" then
    jira_unassign_issue m net (argD arguments "issue_key" (.str ""))
  else if tool_name == "jira_update_sprint" then
    jira_update_sprint m net (argD arguments "sprint_id" (.num 0))
      (argD arguments "name" .null) (argD arguments "goal" .null)
  else if tool_name == "jira_start_sprint" then
    jira_start_sprint m net (argD arguments "sprint_id" (.num 0))
      (argD arguments "start_date" .null) (argD arguments "end_date" .null)
  else if tool_name == "jira_complete_sprint" then
    jira_complete_sprint m net (argD arguments "sprint_id" (.num 0))
  else if tool_name == "jira_update_worklog" then
    jira_update_worklog m net (argD arguments "issue_key" (.str ""))
      (argD arguments "worklog_id" (.str "")) (argD arguments "time_spent" .null)
      (argD arguments "comment" .null)
  else if tool_name == "jira_delete_worklog" then
    jira_delete_worklog m net (argD arguments "issue_key" (.str ""))
      (argD arguments "worklog_id" (.str ""))
  else if tool_name == "jira_batch_create_issues" then
    jira_batch_create_issues m net (argD arguments "issues" (.arr []))
  else if tool_name == "jira_batch_create_versions" then
    jira_batch_create_versions m net (argD arguments "project_key" (.str ""))
      (argD arguments "versions" (.arr []))
  else if tool_name == "jira_batch_get_changelogs" then
    jira_batch_get_changelogs m net (argD arguments "issue_keys" (.arr []))
  else if tool_name == "jira_create_remote_issue_link" then
    jira_create_remote_issue_link m net (argD arguments "issue_key" (.str ""))
      (argD arguments "url" (.str "")) (argD arguments "title" (.str ""))
      (argD arguments "summary" (.str ""))
  else if tool_name == "jira_remove_issue_link" then
    jira_remove_issue_link m net (argD arguments "link_id" (.str ""))
  else
    (.obj [("error", .str ("Tool not implemented: " ++ tool_name))], [])

/-- `ExtendedJiraManager.load_config` (file reading aside): set `jira_url`
from the config, overlay any config `headers` onto the session headers, and
mark `config_loaded`; a falsy/absent URL or a non-object config fails. -/
def load_config (m : Manager) (config : Json) : Manager × Bool :=
  match config with
  | .obj ckvs =>
      let ju := (lookup? ckvs "jira_url").getD .null
      let m1 := { m with jira_url := ju }
      if truthy ju then
        match lookup? ckvs "headers" with
        | some (.obj hs) =>
            ({ m1 with headers := hUpdate m1.headers hs, config_loaded := true }, true)
        | some _ => (m1, false)
        | none => ({ m1 with config_loaded := true }, true)
      else (m1, false)
  | _ => (m, false)

/-- The fixed enhanced browser-like header set applied by
`ExtendedJiraManager.load_cookies` (after the cookies). -/
def enhanced_headers (jira_url : Json) : List (String × Json) :=
  [("User-Agent", .str "Mozilla/5.0 (Macintosh; Intel Mac OS X 10_15_7) AppleWebKit/537.36 (KHTML, like Gecko) Chrome/120.0.0.0 Safari/537.36"),
   ("Accept", .str "application/json, text/javascript, */*; q=0.01"),
   ("Accept-Language", .str "en-US,en;q=0.9"),
   ("Accept-Encoding", .str "gzip, deflate, br"),
   ("Connection", .str "keep-alive"),
   ("X-Atlassian-Token", .str "no-check"),
   ("X-Requested-With", .str "XMLHttpRequest"),
   ("Sec-Fetch-Dest", .str "empty"),
   ("Sec-Fetch-Mode", .str "cors"),
   ("Sec-Fetch-Site", .str "same-origin"),
   ("Sec-Ch-Ua", .str "\"Not_A Brand\";v=\"8\", \"Chromium\";v=\"120\", \"Google Chrome\";v=\"120\""),
   ("Sec-Ch-Ua-Mobile", .str "?0"),
   ("Sec-Ch-Ua-Platform", .str "\"macOS\""),
   ("Cache-Control", .str "no-cache"),
   ("Pragma", .str "no-cache"),
   ("DNT", .str "1"),
   ("Upgrade-Insecure-Requests", .str "1"),
   ("Referer", if truthy jira_url then .str (pyStr jira_url ++ "/secure/Dashboard.jspa")
               else .str "")]

/-- `ExtendedJiraManager.load_cookies` (file reading aside): apply the
cookies at key `"cookies"` to the session jar, then overlay the enhanced
browser-like headers (a plain `session.headers.update`, overwriting
same-named headers), and mark `cookies_loaded`; an empty/absent/non-object
cookie set fails. -/
def load_cookies (m : Manager) (cookie_data : Json) : Manager × Bool :=
  match cookie_data with
  | .obj kvs =>
      match (lookup? kvs "cookies").getD (.obj []) with
      | .obj cs =>
          if cs.isEmpty then (m, false)
          else
            ({ m with session_cookies := dictUpdate m.session_cookies cs,
                      headers := hUpdate m.headers (enhanced_headers m.jira_url),
                      cookies_loaded := true }, true)
      | _ => (m, false)
  | _ => (m, false)

/-- The fixed `default_headers` dict of
`ConventionBasedManager._setup_session`. -/
def convention_default_headers (jira_url : String) : List (String × Json) :=
  [("User-Agent", .str "Mozilla/5.0 (Macintosh; Intel Mac OS X 10_15_7) AppleWebKit/537.36 (KHTML, like Gecko) Chrome/120.0.0.0 Safari/537.36"),
   ("Accept", .str "application/json"),
   ("X-Atlassian-Token", .str "no-check"),
   ("Referer", .str (jira_url ++ "/"))]

/-- The header construction of `ConventionBasedManager._setup_session`.
The session starts with the HTTP library's baseline headers; config headers
are applied over them (`session.headers.update(headers)`); then each
conventional default is set only when its name is not already present —
so a default whose name the baseline already carries (`User-Agent`,
`Accept`) is never installed. -/
def convention_setup_headers (config_headers : List (String × Json))
    (jira_url : String) : List (String × Json) :=
  let h1 := hUpdate requests_baseline_headers config_headers
  (convention_default_headers jira_url).foldl
    (fun acc p => if hHasKey acc p.1 then acc else hInsert acc p.1 p.2) h1

/-- Looking up one name or another can only differ through the case-folded
name. -/
theorem hLookup_congr (a : List (String × Json)) {k k' : String}
    (h : pyLower k = pyLower k') : hLookup a k = hLookup a k' := by
  induction a with
  | nil => rfl
  | cons p rest ih => simp [hLookup, h, ih]

/-- An absent name looks up to `none`. -/
theorem hLookup_none_of_not_hHasKey {a : List (String × Json)} {k : String}
    (h : hHasKey a k = false) : hLookup a k = none := by
  induction a with
  | nil => rfl
  | cons p rest ih =>
      simp [hHasKey] at h
      simp [hLookup, h.1, ih h.2]

/-- `hLookup` across an append. -/
theorem hLookup_append (a b : List (String × Json)) (k : String) :
    hLookup (a ++ b) k = (hLookup a k).orElse (fun _ => hLookup b k) := by
  induction a with
  | nil => simp [hLookup, Option.orElse]
  | cons p rest ih =>
      by_cases h : pyLower p.1 = pyLower k
      · simp [hLookup, h, Option.orElse]
      · simp [hLookup, h, ih]

/-- `hLookup` after dropping every binding of one case-folded name. -/
theorem hLookup_filterNe (a : List (String × Json)) (k k' : String) :
    hLookup (a.filter (fun p => pyLower p.1 != pyLower k)) k' =
      if pyLower k' == pyLower k then none else hLookup a k' := by
  induction a with
  | nil => by_cases h : pyLower k' = pyLower k <;> simp [hLookup, h]
  | cons p rest ih =>
      by_cases hp : pyLower p.1 = pyLower k
      · by_cases h : pyLower k' = pyLower k
        · simp [List.filter_cons, hp, ih, h]
        · have hpk : ¬ pyLower p.1 = pyLower k' := by
            rw [hp]; exact fun hh => h hh.symm
          have hks : ¬ pyLower k = pyLower k' := fun hh => h hh.symm
          simp [List.filter_cons, hp, ih, h, hLookup, hpk, hks]
      · by_cases h : pyLower k' = pyLower k
        · have hpk : ¬ pyLower p.1 = pyLower k' := by
            rw [h]; exact hp
          simp [List.filter_cons, hp, ih, h, hLookup, hpk]
        · simp [List.filter_cons, hp, ih, h, hLookup]

/-- `hLookup` after one case-insensitive insertion. -/
theorem hLookup_hInsert (a : List (String × Json)) (k k' : String) (v : Json) :
    hLookup (hInsert a k v) k' =
      if pyLower k' == pyLower k then some v else hLookup a k' := by
  by_cases h : pyLower k' = pyLower k
  · simp [hInsert, hLookup_append, hLookup_filterNe, h, hLookup, Option.orElse]
  · have hs : ¬ pyLower k = pyLower k' := fun hh => h hh.symm
    simp [hInsert, hLookup_append, hLookup_filterNe, h, hLookup, Option.orElse, hs]
    cases hLookup a k' <;> rfl

/-- `hUpdate` on an empty list of new bindings. -/
theorem hUpdate_nil (b : List (String × Json)) : hUpdate b [] = b := rfl

/-- `hUpdate` peels one new binding into an insertion. -/
theorem hUpdate_cons (b : List (String × Json)) (p : String × Json)
    (rest : List (String × Json)) :
    hUpdate b (p :: rest) = hUpdate (hInsert b p.1 p.2) rest := rfl

/-- Lookup after an update: the update's own (last-writer) bindings first,
then the prior mapping. -/
theorem hLookup_hUpdate (ch : List (String × Json)) (base : List (String × Json))
    (k : String) :
    hLookup (hUpdate base ch) k =
      (hLookup (hUpdate [] ch) k).orElse (fun _ => hLookup base k) := by
  induction ch generalizing base with
  | nil =>
      rw [hUpdate_nil, hUpdate_nil]
      cases h : hLookup base k <;> simp [hLookup, Option.orElse, h]
  | cons p rest ih =>
      rw [hUpdate_cons, hUpdate_cons, ih (hInsert base p.1 p.2),
          ih (hInsert [] p.1 p.2)]
      cases hA : hLookup (hUpdate [] rest) k with
      | some a => simp [Option.orElse]
      | none =>
          simp only [Option.orElse]
          rw [hLookup_hInsert, hLookup_hInsert]
          by_cases h : pyLower k = pyLower p.1
          · simp [h]
          · simp [h, hLookup, Option.orElse]

/-- The default-filling loop of `_setup_session` never changes a binding
that is already present. -/
theorem convention_defaults_preserve (ds : List (String × Json))
    (acc : List (String × Json)) (name : String) (v : Json)
    (h : hLookup acc name = some v) :
    hLookup (ds.foldl (fun a p => if hHasKey a p.1 then a else hInsert a p.1 p.2) acc)
      name = some v := by
  induction ds generalizing acc with
  | nil => simpa using h
  | cons d rest ih =>
      simp only [List.foldl_cons]
      apply ih
      by_cases hk : hHasKey acc d.1 = true
      · simpa [hk] using h
      · have hk' : hHasKey acc d.1 = false := by
          cases hb : hHasKey acc d.1
          · rfl
          · exact absurd hb hk
        rw [if_neg hk]
        rw [hLookup_hInsert]
        by_cases he : pyLower name = pyLower d.1
        · have h0 : hLookup acc name = none := by
            rw [hLookup_congr acc he]
            exact hLookup_none_of_not_hHasKey hk'
          rw [h0] at h
          exact absurd h (by simp)
        · simp [he, h]

/-- C6: every tool method of the Jira manager (`jira_search`,
`jira_get_issue`, and the rest) returns `{"error": "Manager not
initialized"}` and makes no HTTP request when the manager is not ready
(configuration or cookies not loaded, or the base URL falsy/absent). -/
theorem C6_theorem (m : Manager) (net : Net) (c : ToolCall)
    (h : is_ready m = false) :
    runTool m net c = (errNotInit, []) := by
  cases c <;>
    simp [runTool, jira_search, jira_get_issue, jira_get_user_profile, jira_add_comment,
      jira_get_comments, jira_get_projects, jira_get_project, jira_get_transitions,
      jira_get_fields, jira_search_fields, jira_get_custom_fields,
      jira_get_project_issues, jira_transition_issue, jira_get_worklog,
      jira_add_worklog, jira_create_issue, jira_update_issue, jira_delete_issue,
      jira_get_boards, jira_get_board_issues, jira_get_project_versions,
      jira_create_version, jira_get_user_by_username, jira_link_to_epic,
      jira_get_epic_issues, jira_create_issue_link, jira_get_issue_link_types,
      jira_create_sprint, jira_get_sprint_issues, jira_get_all_sprints_from_board,
      jira_get_attachments, jira_download_attachment, jira_delete_attachment,
      jira_update_comment, jira_delete_comment, jira_get_watchers, jira_add_watcher,
      jira_remove_watcher, jira_clone_issue, jira_assign_issue, jira_unassign_issue,
      jira_update_sprint, jira_start_sprint, jira_complete_sprint, jira_update_worklog,
      jira_delete_worklog, jira_batch_create_issues, jira_batch_create_versions,
      jira_batch_get_changelogs, jira_create_remote_issue_link, jira_remove_issue_link, h]

/-- C6: witness at the freshly initialised (not ready) manager. -/
theorem C6_witness :
    is_ready Manager.init = false ∧
    runTool Manager.init (fun _ => .error "down") (.get_issue (.str "K-1")) =
      (errNotInit, []) :=
  ⟨rfl, C6_theorem Manager.init (fun _ => .error "down") (.get_issue (.str "K-1")) rfl⟩

/-- The extended manager after loading a config whose headers set a custom
`User-Agent`, then loading cookies (which applies the enhanced header
set). -/
def managerC7 : Manager :=
  (load_cookies
    (load_config Manager.init
      (.obj [("jira_url", .str "https://j"),
             ("headers", .obj [("User-Agent", .str "custom-agent")])])).1
    (.obj [("cookies", .obj [("A", .str "B")])])).1

/-- C7: counterexample.  In `ExtendedJiraManager`, `load_cookies` applies the
fixed enhanced browser headers with a plain `update` AFTER `load_config`
applied the configuration's headers, so for `User-Agent` — present in both —
the default wins over the configuration's `custom-agent`, contradicting the
claim that configuration wins. -/
theorem C7_counterexample :
    hLookup managerC7.headers "User-Agent" =
      some (.str "Mozilla/5.0 (Macintosh; Intel Mac OS X 10_15_7) AppleWebKit/537.36 (KHTML, like Gecko) Chrome/120.0.0.0 Safari/537.36") ∧
    (Json.str "Mozilla/5.0 (Macintosh; Intel Mac OS X 10_15_7) AppleWebKit/537.36 (KHTML, like Gecko) Chrome/120.0.0.0 Safari/537.36" ≠
      Json.str "custom-agent") :=
  ⟨rfl, by simp⟩

/-- C7 (amended): in `ConventionBasedManager._setup_session` an explicitly
configured header always keeps its configured value in the final session
headers (configuration wins); but because the fresh session already carries
the HTTP library's baseline `User-Agent` and `Accept`, the
`not in session.headers` guard installs only the `X-Atlassian-Token` and
`Referer` defaults — with no config headers the final mapping is the
baseline plus exactly those two, not the browser-mimicking default set.  In
`ExtendedJiraManager`, by contrast, the enhanced default set applied during
`load_cookies` overwrites any same-named session header, configuration
included. -/
theorem C7_amended_theorem :
    (∀ (ch : List (String × Json)) (url name : String) (v : Json),
        hLookup (hUpdate [] ch) name = some v →
        hLookup (convention_setup_headers ch url) name = some v) ∧
    (∀ url : String,
        convention_setup_headers [] url =
          requests_baseline_headers ++
            [("X-Atlassian-Token", Json.str "no-check"),
             ("Referer", Json.str (url ++ "/"))]) ∧
    (∀ ch : List (String × Json),
        hLookup (hUpdate ch (enhanced_headers (.str "https://j"))) "User-Agent" =
          some (.str "Mozilla/5.0 (Macintosh; Intel Mac OS X 10_15_7) AppleWebKit/537.36 (KHTML, like Gecko) Chrome/120.0.0.0 Safari/537.36")) := by
  refine ⟨?_, ?_, ?_⟩
  · intro ch url name v h
    simp only [convention_setup_headers]
    apply convention_defaults_preserve
    rw [hLookup_hUpdate ch requests_baseline_headers name, h]
    rfl
  · intro url
    rfl
  · intro ch
    simp only [hUpdate, enhanced_headers, List.foldl_cons, List.foldl_nil]
    repeat rw [hLookup_hInsert]
    rfl

/-- C7: witness — a configured `User-Agent` survives the convention-based
session setup. -/
theorem C7_amended_witness :
    hLookup (hUpdate [] [("User-Agent", Json.str "custom-agent")]) "User-Agent" =
      some (.str "custom-agent") ∧
    hLookup (convention_setup_headers [("User-Agent", Json.str "custom-agent")]
      "https://j") "User-Agent" = some (.str "custom-agent") :=
  ⟨rfl, C7_amended_theorem.1 [("User-Agent", Json.str "custom-agent")] "https://j"
    "User-Agent" (.str "custom-agent") rfl⟩

/-- A ready manager for concrete dispatch runs. -/
def managerReady : Manager :=
  { jira_url := .str "https://j", cookies_loaded := true, config_loaded := true,
    headers := [], session_cookies := [] }

/-- A network oracle answering every request with `{"key": "NEW-1"}`. -/
def netOkC10 : Net := fun _ => .ok ⟨.obj [("key", .str "NEW-1")], 0⟩

/-- C10: counterexample.  A `jira_create_issue` call with every argument
absent is dispatched with `issue_type` defaulted to `"Task"` — visible in
the POST payload — not to the empty string the claim names as the default
for string parameters (and the call indeed runs, with no validation
error). -/
theorem C10_counterexample :
    (execute_tool managerReady netOkC10 "jira_create_issue" []).2 =
      [⟨"POST", "https://j/rest/api/2/issue",
        some (.obj [("fields", .obj [
          ("project", .obj [("key", .str "")]),
          ("summary", .str ""),
          ("description", .str ""),
          ("issuetype", .obj [("name", .str "Task")])])])⟩] ∧
    Json.str "Task" ≠ Json.str "" :=
  ⟨rfl, by simp⟩

/-- C10 (amended): `execute_tool` never rejects a recognised tool call for
missing arguments — with an empty arguments object every tool body runs with
its per-parameter fixed defaults: the empty string for most string
parameters, `0` for numeric ids, `50` for `max_results`, the empty array for
batch lists, `None` for optional update fields, and the designated
non-empty defaults `"Task"` (`issue_type`) and `"Relates"` (`link_type`). -/
theorem C10_amended_theorem :
    (∀ (m : Manager) (net : Net),
      execute_tool m net "jira_search" [] = jira_search m net (.str "") (.num 50)) ∧
    (∀ (m : Manager) (net : Net),
      execute_tool m net "jira_get_issue" [] = jira_get_issue m net (.str "")) ∧
    (∀ (m : Manager) (net : Net),
      execute_tool m net "jira_get_user_profile" [] = jira_get_user_profile m net) ∧
    (∀ (m : Manager) (net : Net),
      execute_tool m net "jira_add_comment" [] = jira_add_comment m net (.str "") (.str "")) ∧
    (∀ (m : Manager) (net : Net),
      execute_tool m net "jira_get_comments" [] = jira_get_comments m net (.str "")) ∧
    (∀ (m : Manager) (net : Net),
      execute_tool m net "jira_get_projects" [] = jira_get_projects m net) ∧
    (∀ (m : Manager) (net : Net),
      execute_tool m net "jira_get_project" [] = jira_get_project m net (.str "")) ∧
    (∀ (m : Manager) (net : Net),
      execute_tool m net "jira_get_transitions" [] = jira_get_transitions m net (.str "")) ∧
    (∀ (m : Manager) (net : Net),
      execute_tool m net "jira_get_fields" [] = jira_get_fields m net) ∧
    (∀ (m : Manager) (net : Net),
      execute_tool m net "jira_search_fields" [] = jira_search_fields m net (.str "")) ∧
    (∀ (m : Manager) (net : Net),
      execute_tool m net "jira_get_custom_fields" [] = jira_get_custom_fields m net) ∧
    (∀ (m : Manager) (net : Net),
      execute_tool m net "jira_get_project_issues" [] = jira_get_project_issues m net (.str "") (.num 50)) ∧
    (∀ (m : Manager) (net : Net),
      execute_tool m net "jira_transition_issue" [] = jira_transition_issue m net (.str "") (.str "")) ∧
    (∀ (m : Manager) (net : Net),
      execute_tool m net "jira_get_worklog" [] = jira_get_worklog m net (.str "")) ∧
    (∀ (m : Manager) (net : Net),
      execute_tool m net "jira_add_worklog" [] = jira_add_worklog m net (.str "") (.str "") (.str "")) ∧
    (∀ (m : Manager) (net : Net),
      execute_tool m net "jira_create_issue" [] = jira_create_issue m net (.str "") (.str "") (.str "") (.str "Task")) ∧
    (∀ (m : Manager) (net : Net),
      execute_tool m net "jira_update_issue" [] = jira_update_issue m net (.str "") .null .null) ∧
    (∀ (m : Manager) (net : Net),
      execute_tool m net "jira_delete_issue" [] = jira_delete_issue m net (.str "")) ∧
    (∀ (m : Manager) (net : Net),
      execute_tool m net "jira_get_boards" [] = jira_get_boards m net) ∧
    (∀ (m : Manager) (net : Net),
      execute_tool m net "jira_get_board_issues" [] = jira_get_board_issues m net (.num 0)) ∧
    (∀ (m : Manager) (net : Net),
      execute_tool m net "jira_get_project_versions" [] = jira_get_project_versions m net (.str "")) ∧
    (∀ (m : Manager) (net : Net),
      execute_tool m net "jira_create_version" [] = jira_create_version m net (.str "") (.str "") (.str "")) ∧
    (∀ (m : Manager) (net : Net),
      execute_tool m net "jira_get_user_by_username" [] = jira_get_user_by_username m net (.str "")) ∧
    (∀ (m : Manager) (net : Net),
      execute_tool m net "jira_link_to_epic" [] = jira_link_to_epic m net (.str "") (.str "")) ∧
    (∀ (m : Manager) (net : Net),
      execute_tool m net "jira_get_epic_issues" [] = jira_get_epic_issues m net (.str "")) ∧
    (∀ (m : Manager) (net : Net),
      execute_tool m net "jira_create_issue_link" [] = jira_create_issue_link m net (.str "") (.str "") (.str "Relates")) ∧
    (∀ (m : Manager) (net : Net),
      execute_tool m net "jira_get_issue_link_types" [] = jira_get_issue_link_types m net) ∧
    (∀ (m : Manager) (net : Net),
      execute_tool m net "jira_create_sprint" [] = jira_create_sprint m net (.num 0) (.str "") (.str "")) ∧
    (∀ (m : Manager) (net : Net),
      execute_tool m net "jira_get_sprint_issues" [] = jira_get_sprint_issues m net (.num 0)) ∧
    (∀ (m : Manager) (net : Net),
      execute_tool m net "jira_get_all_sprints_from_board" [] = jira_get_all_sprints_from_board m net (.num 0)) ∧
    (∀ (m : Manager) (net : Net),
      execute_tool m net "jira_get_attachments" [] = jira_get_attachments m net (.str "")) ∧
    (∀ (m : Manager) (net : Net),
      execute_tool m net "jira_download_attachment" [] = jira_download_attachment m net (.str "") .null) ∧
    (∀ (m : Manager) (net : Net),
      execute_tool m net "jira_delete_attachment" [] = jira_delete_attachment m net (.str "")) ∧
    (∀ (m : Manager) (net : Net),
      execute_tool m net "jira_update_comment" [] = jira_update_comment m net (.str "") (.str "") (.str "")) ∧
    (∀ (m : Manager) (net : Net),
      execute_tool m net "jira_delete_comment" [] = jira_delete_comment m net (.str "") (.str "")) ∧
    (∀ (m : Manager) (net : Net),
      execute_tool m net "jira_get_watchers" [] = jira_get_watchers m net (.str "")) ∧
    (∀ (m : Manager) (net : Net),
      execute_tool m net "jira_add_watcher" [] = jira_add_watcher m net (.str "") (.str "")) ∧
    (∀ (m : Manager) (net : Net),
      execute_tool m net "jira_remove_watcher" [] = jira_remove_watcher m net (.str "") (.str "")) ∧
    (∀ (m : Manager) (net : Net),
      execute_tool m net "jira_clone_issue" [] = jira_clone_issue m net (.str "") (.str "") .null) ∧
    (∀ (m : Manager) (net : Net),
      execute_tool m net "jira_assign_issue" [] = jira_assign_issue m net (.str "") (.str "")) ∧
    (∀ (m : Manager) (net : Net),
      execute_tool m net "jira_unassign_issue" [] = jira_unassign_issue m net (.str "")) ∧
    (∀ (m : Manager) (net : Net),
      execute_tool m net "jira_update_sprint" [] = jira_update_sprint m net (.num 0) .null .null) ∧
    (∀ (m : Manager) (net : Net),
      execute_tool m net "jira_start_sprint" [] = jira_start_sprint m net (.num 0) .null .null) ∧
    (∀ (m : Manager) (net : Net),
      execute_tool m net "jira_complete_sprint" [] = jira_complete_sprint m net (.num 0)) ∧
    (∀ (m : Manager) (net : Net),
      execute_tool m net "jira_update_worklog" [] = jira_update_worklog m net (.str "") (.str "") .null .null) ∧
    (∀ (m : Manager) (net : Net),
      execute_tool m net "jira_delete_worklog" [] = jira_delete_worklog m net (.str "") (.str "")) ∧
    (∀ (m : Manager) (net : Net),
      execute_tool m net "jira_batch_create_issues" [] = jira_batch_create_issues m net (.arr [])) ∧
    (∀ (m : Manager) (net : Net),
      execute_tool m net "jira_batch_create_versions" [] = jira_batch_create_versions m net (.str "") (.arr [])) ∧
    (∀ (m : Manager) (net : Net),
      execute_tool m net "jira_batch_get_changelogs" [] = jira_batch_get_changelogs m net (.arr [])) ∧
    (∀ (m : Manager) (net : Net),
      execute_tool m net "jira_create_remote_issue_link" [] = jira_create_remote_issue_link m net (.str "") (.str "") (.str "") (.str "")) ∧
    (∀ (m : Manager) (net : Net),
      execute_tool m net "jira_remove_issue_link" [] = jira_remove_issue_link m net (.str "")) :=
  ⟨fun _ _ => rfl, fun _ _ => rfl, fun _ _ => rfl, fun _ _ => rfl, fun _ _ => rfl, fun _ _ => rfl, fun _ _ => rfl, fun _ _ => rfl, fun _ _ => rfl, fun _ _ => rfl, fun _ _ => rfl, fun _ _ => rfl, fun _ _ => rfl, fun _ _ => rfl, fun _ _ => rfl, fun _ _ => rfl, fun _ _ => rfl, fun _ _ => rfl, fun _ _ => rfl, fun _ _ => rfl, fun _ _ => rfl, fun _ _ => rfl, fun _ _ => rfl, fun _ _ => rfl, fun _ _ => rfl, fun _ _ => rfl, fun _ _ => rfl, fun _ _ => rfl, fun _ _ => rfl, fun _ _ => rfl, fun _ _ => rfl, fun _ _ => rfl, fun _ _ => rfl, fun _ _ => rfl, fun _ _ => rfl, fun _ _ => rfl, fun _ _ => rfl, fun _ _ => rfl, fun _ _ => rfl, fun _ _ => rfl, fun _ _ => rfl, fun _ _ => rfl, fun _ _ => rfl, fun _ _ => rfl, fun _ _ => rfl, fun _ _ => rfl, fun _ _ => rfl, fun _ _ => rfl, fun _ _ => rfl, fun _ _ => rfl, fun _ _ => rfl⟩
